import Mathlib

/-!
Verification development for the `openai-agent` repository (packages
`literun` and `openai_agent`): a shallow embedding, in Lean 4, of the
agent execution loop, the tool invocation contract (argument validation,
casting, runtime-context injection) and the conversation-state message
model, together with theorems settling the frozen claims about them.

Conventions of the embedding:
* Python scalar values (the four schema types plus `None`) are the
  inductive `PyVal`; Python `float` is modelled by `Rat` (exact
  arithmetic; the repository only ever constructs floats from ints,
  bools and decimal literals).
* Python dicts keyed by strings are association lists with
  first-occurrence insertion order and last-write-wins update (`dset`),
  matching CPython dict semantics.
* Fallible Python code (raising) is `Except String`; the distinct
  exception classes raised by the runner are the inductive `RunError`.
* The serialized JSON argument text carried on tool calls is modelled
  abstractly by `ArgsText`: either the serialization of a flat object of
  scalars (the only shape the repository produces and consumes) or a
  malformed string, with `jsonLoads` modelling `json.loads`.
-/

/-- Python scalar values as they occur in tool arguments and outputs:
`None`, `str`, `int`, `float` (modelled exactly by `Rat`) and `bool`. -/
inductive PyVal where
  | none : PyVal
  | str : String → PyVal
  | int : Int → PyVal
  | float : Rat → PyVal
  | bool : Bool → PyVal
deriving Repr, DecidableEq, Inhabited

/-- Decidable equality of `Except` results, for evaluating outcomes of
the embedded operations on concrete inputs. -/
instance exceptDecEq {ε α : Type} [DecidableEq ε] [DecidableEq α] :
    DecidableEq (Except ε α) := fun x y =>
  match x, y with
  | Except.ok a, Except.ok b =>
    if h : a = b then Decidable.isTrue (by rw [h])
    else Decidable.isFalse (by intro hh; injection hh with h2; exact h h2)
  | Except.error a, Except.error b =>
    if h : a = b then Decidable.isTrue (by rw [h])
    else Decidable.isFalse (by intro hh; injection hh with h2; exact h h2)
  | Except.ok _, Except.error _ => Decidable.isFalse (by intro hh; exact Except.noConfusion hh)
  | Except.error _, Except.ok _ => Decidable.isFalse (by intro hh; exact Except.noConfusion hh)

/-- Python truthiness of a `PyVal` (`bool(x)`): `None`, `""`, `0`, `0.0`
and `False` are falsy, everything else truthy. -/
def pyTruthy : PyVal → Bool
  | PyVal.none => false
  | PyVal.str s => s != ""
  | PyVal.int i => i != 0
  | PyVal.float q => q != 0
  | PyVal.bool b => b

/-- Decimal rendering of a `Rat` standing for a Python float, as `str`
produces it for the floats the repository builds (`n.0` for integral
values); non-integral rationals are rendered as exact fractions, an
admitted approximation of CPython float repr never hit by the claims. -/
def ratRepr (q : Rat) : String :=
  if q.den = 1 then toString q.num ++ ".0" else toString q.num ++ "/" ++ toString q.den

/-- Python `str(x)` on the modelled values. -/
def pyStr : PyVal → String
  | PyVal.none => "None"
  | PyVal.str s => s
  | PyVal.int i => toString i
  | PyVal.float q => ratRepr q
  | PyVal.bool b => if b then "True" else "False"

/-- Whitespace as Python's numeric-literal parsing strips it. -/
def isPySpace (c : Char) : Bool :=
  c = ' ' ∨ c = '\t' ∨ c = '\n' ∨ c = '\r'

/-- Strip leading and trailing whitespace from a character list. -/
def trimChars (cs : List Char) : List Char :=
  ((cs.dropWhile isPySpace).reverse.dropWhile isPySpace).reverse

/-- Accumulate a decimal digit string; any non-digit fails. -/
def digitsToNatAux : List Char → Nat → Option Nat
  | [], acc => Option.some acc
  | c :: cs, acc =>
    if c.isDigit then digitsToNatAux cs (acc * 10 + (c.toNat - 48))
    else Option.none

/-- A nonempty all-digit character list as a number. -/
def digitsToNat? : List Char → Option Nat
  | [] => Option.none
  | cs => digitsToNatAux cs 0

/-- Python `int(s)` on a string: optional sign and decimal digits
(whitespace stripped); anything else raises. -/
def parseIntPy (s : String) : Option Int :=
  match trimChars s.data with
  | '+' :: rest => (digitsToNat? rest).map Int.ofNat
  | '-' :: rest => (digitsToNat? rest).map (fun n => -(n : Int))
  | rest => (digitsToNat? rest).map Int.ofNat

/-- Split a character list at the dots. -/
def splitDotAux : List Char → List Char → List (List Char)
  | [], acc => [acc.reverse]
  | c :: cs, acc =>
    if c = '.' then acc.reverse :: splitDotAux cs []
    else splitDotAux cs (c :: acc)

/-- Python `float(s)` on a string: optional sign, decimal digits with an
optional fractional part (exponent forms, `inf` and `nan` are outside
the model; the repository never produces them). -/
def parseFloatPy (s : String) : Option Rat :=
  let t := trimChars s.data
  let sgn : Rat := if t.headD ' ' = '-' then -1 else 1
  let u := if t.headD ' ' = '-' ∨ t.headD ' ' = '+' then t.drop 1 else t
  match splitDotAux u [] with
  | [a] =>
    match digitsToNat? a with
    | Option.some n => Option.some (sgn * (n : Rat))
    | Option.none => Option.none
  | [a, b] =>
    if a.isEmpty ∧ b.isEmpty then Option.none
    else
      match (if a.isEmpty then Option.some 0 else digitsToNat? a),
            (if b.isEmpty then Option.some 0 else digitsToNat? b) with
      | Option.some na, Option.some nb =>
        Option.some (sgn * ((na : Rat) + (nb : Rat) / ((10 : Rat) ^ b.length)))
      | _, _ => Option.none
  | _ => Option.none

/-- Truncation of a rational toward zero, as Python `int(float)`. -/
def ratTrunc (q : Rat) : Int := Int.tdiv q.num (Int.ofNat q.den)

/-- Python `str(value)`: never raises on the modelled values. -/
def castStrPy (v : PyVal) : Except String PyVal := Except.ok (PyVal.str (pyStr v))

/-- Python `int(value)`. -/
def castIntPy : PyVal → Except String PyVal
  | PyVal.int i => Except.ok (PyVal.int i)
  | PyVal.bool b => Except.ok (PyVal.int (if b then 1 else 0))
  | PyVal.float q => Except.ok (PyVal.int (ratTrunc q))
  | PyVal.str s =>
    match parseIntPy s with
    | Option.some i => Except.ok (PyVal.int i)
    | Option.none => Except.error ("invalid literal for int() with base 10: " ++ s)
  | PyVal.none => Except.error "int() argument must be a string or a number, not NoneType"

/-- Python `float(value)`. -/
def castFloatPy : PyVal → Except String PyVal
  | PyVal.float q => Except.ok (PyVal.float q)
  | PyVal.int i => Except.ok (PyVal.float (i : Rat))
  | PyVal.bool b => Except.ok (PyVal.float (if b then 1 else 0))
  | PyVal.str s =>
    match parseFloatPy s with
    | Option.some q => Except.ok (PyVal.float q)
    | Option.none => Except.error ("could not convert string to float: " ++ s)
  | PyVal.none => Except.error "float() argument must be a string or a number, not NoneType"

/-- Python `bool(value)`: truthiness, never raises. -/
def castBoolPy (v : PyVal) : Except String PyVal := Except.ok (PyVal.bool (pyTruthy v))

/-- The four Python scalar types a tool argument may declare
(`ArgsSchema.type_` in `literun/args_schema.py`; `Arg.type_` in
`openai_agent/args_schema.py`). -/
inductive PyType where
  | str : PyType
  | int : PyType
  | float : PyType
  | bool : PyType
deriving Repr, DecidableEq

/-- `type.__name__` of the declared type, used in error messages. -/
def PyType.pyName : PyType → String
  | PyType.str => "str"
  | PyType.int => "int"
  | PyType.float => "float"
  | PyType.bool => "bool"

/-- `self.type_(value)`: apply the declared type as a cast. -/
def applyCast : PyType → PyVal → Except String PyVal
  | PyType.str, v => castStrPy v
  | PyType.int, v => castIntPy v
  | PyType.float, v => castFloatPy v
  | PyType.bool, v => castBoolPy v

/-- A string-keyed Python dict as an insertion-ordered association list. -/
abbrev PyDict (α : Type) := List (String × α)

/-- `d.get(k)` with a default (`d.get(k)` itself defaults to `None`). -/
def dget {α : Type} (d : PyDict α) (k : String) (dfl : α) : α :=
  match d.find? (fun p => p.1 == k) with
  | Option.some p => p.2
  | Option.none => dfl

/-- `d[k] = v` with CPython dict semantics: an existing key keeps its
position and takes the new value, a new key is appended. -/
def dset {α : Type} (d : PyDict α) (k : String) (v : α) : PyDict α :=
  if d.any (fun p => p.1 == k) then
    d.map (fun p => if p.1 == k then (k, v) else p)
  else d ++ [(k, v)]

namespace Literun

/-- `literun/args_schema.py` `ArgsSchema` (identical in logic to
`openai_agent/args_schema.py` `Arg`): one declared tool argument. -/
structure ArgsSchema where
  name : String
  type_ : PyType
  description : String := ""
  enum : Option (List PyVal) := Option.none
deriving Repr, DecidableEq

/-- `ArgsSchema._json_type`: the JSON Schema type string for the
declared Python type (total here because `PyType` is exactly the four
supported types; any other Python type raises in the source). -/
def ArgsSchema.jsonType : ArgsSchema → String
  | a =>
    match a.type_ with
    | PyType.str => "string"
    | PyType.int => "integer"
    | PyType.float => "number"
    | PyType.bool => "boolean"

/-- The JSON Schema dictionary `convert_to_json_schema` builds for one
argument. -/
structure ArgJson where
  type : String
  description : String
  enum : Option (List PyVal)
deriving Repr, DecidableEq

/-- `ArgsSchema.convert_to_json_schema`: type and description always;
the `enum` key only when `self.enum` is truthy (neither `None` nor the
empty list). -/
def ArgsSchema.convertToJsonSchema (a : ArgsSchema) : ArgJson :=
  { type := a.jsonType
    description := a.description
    enum :=
      match a.enum with
      | Option.none => Option.none
      | Option.some l => if l.isEmpty then Option.none else Option.some l }

/-- `ArgsSchema.validate_and_cast`: `None` (also the result of a missing
key) is a validation error; otherwise the declared type is applied as a
cast, a failure becoming a validation error naming the expected type. -/
def ArgsSchema.validateAndCast (a : ArgsSchema) (value : PyVal) : Except String PyVal :=
  if value = PyVal.none then
    Except.error ("Missing required argument '" ++ a.name ++ "'")
  else
    match applyCast a.type_ value with
    | Except.ok v => Except.ok v
    | Except.error _ =>
      Except.error ("Invalid value for '" ++ a.name ++ "': expected " ++ a.type_.pyName)

end Literun

/-- The serialized JSON argument text of a tool call, modelled
abstractly: the serialization of a flat object of scalar values (the
only shape the repository produces for tool arguments), or a string
`json.loads` rejects. -/
inductive ArgsText where
  | obj : PyDict PyVal → ArgsText
  | malformed : String → ArgsText
deriving Repr, DecidableEq

/-- `json.loads(arguments)` on the modelled argument text. -/
def jsonLoads : ArgsText → Except String (PyDict PyVal)
  | ArgsText.obj d => Except.ok d
  | ArgsText.malformed s => Except.error ("Expecting value: " ++ s)

/-- The annotation of a callable parameter, as far as the runtime cares:
either the runtime-context type `ToolRuntime`, or anything else
(`Tool._inject_runtime` only tests `ptype is ToolRuntime`). -/
inductive PyAnnot where
  | toolRuntime : PyAnnot
  | plain : PyAnnot
deriving Repr, DecidableEq

/-- The value bound to one parameter of a tool callable: a scalar
argument, or the injected `ToolRuntime` object carrying the
caller-supplied key/value map. -/
inductive ArgVal where
  | val : PyVal → ArgVal
  | runtime : PyDict PyVal → ArgVal
deriving Repr, DecidableEq

/-- A Python callable as the tool layer sees it: its `get_type_hints`
result (parameter name to annotation, a dict, so keys are unique), and
its behaviour on a keyword-argument binding — `Except.error` models the
callable raising (including a `TypeError` from a binding the signature
rejects). -/
structure PyFunc where
  hints : PyDict PyAnnot
  impl : PyDict ArgVal → Except String PyVal

namespace Literun

/-- `literun/tool.py` `Tool` (the fields the synchronous execution path
reads; `coroutine` differs only in being awaited or dispatched to a
thread, which the sequential model does not distinguish). -/
structure Tool where
  name : String
  description : String := ""
  func : Option PyFunc := Option.none
  args_schema : Option (List ArgsSchema) := Option.none
  strict : Option Bool := Option.none

/-- The `for arg in self.args_schema` loop of `Tool._resolve_arguments`,
carrying the `parsed` dict: each declared argument is looked up in the
raw dict (`raw_args.get`, defaulting to `None`), validated and cast, and
written into `parsed`. -/
def resolveArgsGo (raw : PyDict PyVal) :
    List ArgsSchema → PyDict PyVal → Except String (PyDict PyVal)
  | [], parsed => Except.ok parsed
  | a :: rest, parsed =>
    match a.validateAndCast (dget raw a.name PyVal.none) with
    | Except.error e => Except.error e
    | Except.ok v => resolveArgsGo raw rest (dset parsed a.name v)

/-- The resolution of a declared schema against raw model arguments. -/
def resolveArgs (schema : List ArgsSchema) (raw : PyDict PyVal) :
    Except String (PyDict PyVal) :=
  resolveArgsGo raw schema []

/-- `Tool._resolve_arguments`: with a truthy `args_schema` (not `None`,
not empty) the raw values are validated and cast; otherwise the raw
arguments pass through unchanged. -/
def Tool.resolveArguments (t : Tool) (raw : PyDict PyVal) : Except String (PyDict PyVal) :=
  match t.args_schema with
  | Option.some args => if args.isEmpty then Except.ok raw else resolveArgs args raw
  | Option.none => Except.ok raw

/-- `Tool._inject_runtime`: starting from a copy of the resolved
arguments, every parameter whose annotation is the `ToolRuntime` type is
bound to a `ToolRuntime` built from the caller-supplied key/value map,
or from an empty one when none was supplied. -/
def injectRuntime (args : PyDict ArgVal) (runtimeContext : Option (PyDict PyVal))
    (hints : PyDict PyAnnot) : PyDict ArgVal :=
  hints.foldl
    (fun acc p =>
      match p.2 with
      | PyAnnot.toolRuntime => dset acc p.1 (ArgVal.runtime (runtimeContext.getD []))
      | PyAnnot.plain => acc)
    args

/-- The keyword arguments `Tool.run` hands to the callable after
resolution and runtime injection. -/
def Tool.finalArgs (_t : Tool) (parsed : PyDict PyVal) (runtimeContext : Option (PyDict PyVal))
    (f : PyFunc) : PyDict ArgVal :=
  injectRuntime (parsed.map (fun p => (p.1, ArgVal.val p.2))) runtimeContext f.hints

/-- `Tool.run`: fail without a synchronous implementation (a
`RuntimeError`), otherwise resolve the raw arguments, inject the runtime
context and call the function; any raise surfaces as `Except.error`. -/
def Tool.run (t : Tool) (args : PyDict PyVal) (runtimeContext : Option (PyDict PyVal)) :
    Except String PyVal :=
  match t.func with
  | Option.none => Except.error "This tool has no synchronous implementation"
  | Option.some f =>
    match t.resolveArguments args with
    | Except.error e => Except.error e
    | Except.ok parsed => f.impl (t.finalArgs parsed runtimeContext f)

/-- The model-visible tool definition `convert_to_openai_tool` builds
(the fixed `type: "function"`, `parameters.type: "object"` and
`additionalProperties: false` keys are left implicit). -/
structure OpenAIToolDef where
  name : String
  description : String
  properties : List (String × ArgJson)
  required : List String
  strict : Option Bool
deriving Repr, DecidableEq

/-- `Tool.convert_to_openai_tool`: properties and the required list are
built from `args_schema` alone (every declared argument, in order, is a
property and required); a falsy `args_schema` yields empty ones. -/
def Tool.convertToOpenaiTool (t : Tool) : OpenAIToolDef :=
  let schema :=
    match t.args_schema with
    | Option.some args => if args.isEmpty then [] else args
    | Option.none => []
  { name := t.name
    description := t.description
    properties := schema.map (fun a => (a.name, a.convertToJsonSchema))
    required := schema.map (fun a => a.name)
    strict := t.strict }

/-- `literun/constants.py`: the `ContentType` literal — the only values
the pydantic field annotation `content_type: ContentType` admits. -/
def contentTypeLiterals : List String :=
  ["input_text", "output_text", "message", "function_call", "function_call_output"]

/-- `literun/constants.py`: the `Role` literal. -/
def roleLiterals : List String :=
  ["system", "user", "assistant", "developer", "tool"]

/-- `literun/message.py` `PromptMessage`: the domain representation of
one conversation message; every field but `content_type` is optional. -/
structure PromptMessage where
  role : Option String := Option.none
  text : Option String := Option.none
  name : Option String := Option.none
  arguments : Option ArgsText := Option.none
  call_id : Option String := Option.none
  output : Option String := Option.none
  content_type : String
deriving Repr, DecidableEq

/-- `PromptMessage._validate_invariants`, the `mode="after"` model
validator: for `"text"` a role and a string text are required, for
`"tool_call"` a truthy name, a string `arguments` and a truthy
`call_id`, for `"tool_call_output"` a truthy `call_id` and a string
output; every other tag is rejected as unsupported. (Python falsiness
of an optional string is `None` or `""`; `isinstance(x, str)` on an
optional string is `x` not being `None`.) -/
def validateInvariants (m : PromptMessage) : Except String PromptMessage :=
  if m.content_type = "text" then
    if m.role = Option.none then Except.error "role is required for text messages"
    else if m.text = Option.none then Except.error "text is required for text messages"
    else Except.ok m
  else if m.content_type = "tool_call" then
    if m.name = Option.none ∨ m.name = Option.some "" then
      Except.error "name is required for tool_call"
    else if m.arguments = Option.none then Except.error "arguments must be a JSON string"
    else if m.call_id = Option.none ∨ m.call_id = Option.some "" then
      Except.error "call_id is required for tool_call"
    else Except.ok m
  else if m.content_type = "tool_call_output" then
    if m.call_id = Option.none ∨ m.call_id = Option.some "" then
      Except.error "call_id is required for tool_call_output"
    else if m.output = Option.none then Except.error "output must be a string"
    else Except.ok m
  else Except.error ("Unsupported content_type: " ++ m.content_type)

/-- The pydantic field-level check on `role`: `None` or one of the
`Role` literals. -/
def pydanticRoleOk (m : PromptMessage) : Bool :=
  match m.role with
  | Option.none => true
  | Option.some r => roleLiterals.contains r

/-- Constructing a `PromptMessage` as pydantic does: field-level
validation first — `role` must be `None` or one of the `Role` literals,
`content_type` must be one of the `ContentType` literals of
`literun/constants.py` — then the `mode="after"` validator
`_validate_invariants`. -/
def pydanticConstruct (m : PromptMessage) : Except String PromptMessage :=
  if !(pydanticRoleOk m) then Except.error "Input should be a valid Role"
  else if contentTypeLiterals.contains m.content_type then
    validateInvariants m
  else
    Except.error "Input should be a valid ContentType"

/-- `literun/prompt.py` `PromptTemplate`: the ordered conversation
state, mutated only by appends. -/
structure PromptTemplate where
  messages : List PromptMessage := []
deriving Repr, DecidableEq

/-- `PromptTemplate.add_message`: append (the `isinstance` check is the
Lean type). -/
def PromptTemplate.addMessage (t : PromptTemplate) (m : PromptMessage) : PromptTemplate :=
  { messages := t.messages ++ [m] }

/-- The message `add_system` constructs. -/
def systemMsg (text : String) : PromptMessage :=
  { role := Option.some "system", content_type := "text", text := Option.some text }

/-- The message `add_user` constructs. -/
def userMsg (text : String) : PromptMessage :=
  { role := Option.some "user", content_type := "text", text := Option.some text }

/-- The message `add_assistant` constructs. -/
def assistantMsg (text : String) : PromptMessage :=
  { role := Option.some "assistant", content_type := "text", text := Option.some text }

/-- The message `add_tool_call` constructs. -/
def toolCallMsg (name : String) (arguments : ArgsText) (call_id : String) : PromptMessage :=
  { content_type := "tool_call", name := Option.some name,
    arguments := Option.some arguments, call_id := Option.some call_id }

/-- The message `add_tool_output` constructs. -/
def toolOutputMsg (call_id : String) (output : String) : PromptMessage :=
  { content_type := "tool_call_output", call_id := Option.some call_id,
    output := Option.some output }

/-- Append a message after constructing it: each `add_*` helper of
`prompt.py` instantiates `PromptMessage(...)` — running pydantic's
field checks and then `_validate_invariants` — and appends the result;
a construction failure is the raise the caller propagates. -/
def PromptTemplate.addChecked (t : PromptTemplate) (m : PromptMessage) :
    Except String PromptTemplate :=
  match pydanticConstruct m with
  | Except.error e => Except.error e
  | Except.ok m' => Except.ok (t.addMessage m')

/-- `PromptTemplate.add_system`. -/
def PromptTemplate.addSystem (t : PromptTemplate) (text : String) :
    Except String PromptTemplate :=
  t.addChecked (systemMsg text)

/-- `PromptTemplate.add_user`. -/
def PromptTemplate.addUser (t : PromptTemplate) (text : String) :
    Except String PromptTemplate :=
  t.addChecked (userMsg text)

/-- `PromptTemplate.add_assistant`. -/
def PromptTemplate.addAssistant (t : PromptTemplate) (text : String) :
    Except String PromptTemplate :=
  t.addChecked (assistantMsg text)

/-- `PromptTemplate.add_tool_call`. -/
def PromptTemplate.addToolCall (t : PromptTemplate) (name : String) (arguments : ArgsText)
    (call_id : String) : Except String PromptTemplate :=
  t.addChecked (toolCallMsg name arguments call_id)

/-- `PromptTemplate.add_tool_output`. -/
def PromptTemplate.addToolOutput (t : PromptTemplate) (call_id : String) (output : String) :
    Except String PromptTemplate :=
  t.addChecked (toolOutputMsg call_id output)

/-- The setter pydantic would dispatch the assignment
`new.messages = list(self.messages)` of `PromptTemplate.copy` to:
`prompt.py` declares `messages` as a `@property` with a getter only, so
there is no setter — pydantic's `__setattr__` routes an assignment to a
class-level property through `property.__set__`, which raises
`AttributeError` when `fset` is absent. -/
def pydanticMessagesSetter :
    Option (PromptTemplate → List PromptMessage → PromptTemplate) :=
  Option.none

/-- `PromptTemplate.copy` as written: build an empty template, then
assign `new.messages`; with no setter for the `messages` property the
assignment raises, so the method never returns a copy. -/
def PromptTemplate.copyPy (t : PromptTemplate) : Except String PromptTemplate :=
  match pydanticMessagesSetter with
  | Option.some setter => Except.ok (setter { messages := [] } t.messages)
  | Option.none =>
    Except.error "AttributeError: property messages of PromptTemplate object has no setter"

end Literun

/-- One content part of a `message` output item of a model response
(`item.content`): a type tag and a text. -/
structure ContentPart where
  type : String
  text : String
deriving Repr, DecidableEq

/-- The text a message item contributes: the concatenation of the texts
of its `output_text` parts. -/
def joinOutputText (parts : List ContentPart) : String :=
  String.join ((parts.filter (fun c => c.type == "output_text")).map (fun c => c.text))

/-- One output item of a (non-streaming) model response, as the agent
loops inspect it: a reasoning item, a function call (with the provider
item id, the call id, the tool name and the serialized arguments), a
message with content parts, or any other item type (which the `elif`
chains ignore). -/
inductive OutputItem where
  | reasoning : String → OutputItem
  | functionCall (id : String) (call_id : String) (name : String)
      (arguments : ArgsText) : OutputItem
  | message : List ContentPart → OutputItem
  | other : OutputItem
deriving Repr, DecidableEq

/-- The distinct exception classes an agent run can raise: `ValueError`
(empty input, unknown tool, argument validation), `RuntimeError` (budget
exhaustion, protocol violation), a pydantic validation error from
message construction, an `AttributeError` from the setter-less
`messages` property assignment of `PromptTemplate.copy`, or an
arbitrary exception escaping a tool callable. -/
inductive RunError where
  | valueError : String → RunError
  | runtimeError : String → RunError
  | validationError : String → RunError
  | attributeError : String → RunError
  | exception : String → RunError
deriving Repr, DecidableEq

namespace Literun

/-- A run item of the trace the runner accumulates (`all_items`); the
`raw_item` payloads are dropped, the discriminating fields kept. -/
inductive RunItem where
  | reasoningItem : String → RunItem
  | toolCallItem (call_id : String) (name : String) (arguments : ArgsText) : RunItem
  | messageOutputItem : String → RunItem
  | toolCallOutputItem (call_id : String) (output : String) (name : String) : RunItem
deriving Repr, DecidableEq

/-- One entry of the `tool_calls` dict the loop builds per turn. -/
structure ToolCallRec where
  call_id : String
  name : String
  arguments : ArgsText
deriving Repr, DecidableEq

/-- The per-turn scan of `response.output` in `Runner.run`: reasoning
items are traced; each `function_call` item is traced and recorded in
the `tool_calls` dict keyed by the provider item id (insertion-ordered,
last write wins); each `message` item is traced and its joined
`output_text` becomes the current `final_output_text` (overwriting any
earlier message item's); other item types are skipped. Returns the
`tool_calls` dict, the final text and the trace items, in scan order. -/
def scanOutput (output : List OutputItem) :
    PyDict ToolCallRec × String × List RunItem :=
  output.foldl
    (fun acc it =>
      match it with
      | OutputItem.reasoning c => (acc.1, acc.2.1, acc.2.2 ++ [RunItem.reasoningItem c])
      | OutputItem.functionCall id cid nm args =>
        (dset acc.1 id { call_id := cid, name := nm, arguments := args },
         acc.2.1, acc.2.2 ++ [RunItem.toolCallItem cid nm args])
      | OutputItem.message parts =>
        let t := joinOutputText parts
        (acc.1, t, acc.2.2 ++ [RunItem.messageOutputItem t])
      | OutputItem.other => acc)
    ([], "", [])

/-- `literun/agent.py` `Agent`: the configuration the runner reads.
`_tools` is the dict `add_tools` builds; it is modelled by the tool
list plus name lookup, with the duplicate check in `addTools`. -/
structure Agent where
  tools : List Tool := []
  system_prompt : Option String := Option.none
  max_iterations : Nat := 20

/-- `Agent.add_tools`: fail on a duplicate tool name, otherwise the
name-to-tool mapping (kept as the list, looked up by name). -/
def addTools : List Tool → Except String (List Tool)
  | [] => Except.ok []
  | t :: rest =>
    if rest.any (fun u => u.name == t.name) then
      Except.error ("Duplicate tool name: " ++ t.name)
    else
      match addTools rest with
      | Except.error e => Except.error e
      | Except.ok l => Except.ok (t :: l)

/-- Lookup in the agent's tool dict (`agent._tools.get(name)`). -/
def lookupTool (tools : List Tool) (name : String) : Option Tool :=
  tools.find? (fun t => t.name == name)

/-- `Runner._run_tool`: an unregistered name yields the not-found error
string; otherwise the arguments are parsed from their JSON text and the
tool is run, any raise (parsing, resolution, the callable itself) being
caught and rendered as the execution-error string; a success is passed
through `str`. This function never raises. -/
def runTool (agent : Agent) (name : String) (arguments : ArgsText)
    (runtimeContext : Option (PyDict PyVal)) : String :=
  match lookupTool agent.tools name with
  | Option.none => "Error: Tool '" ++ name ++ "' not found"
  | Option.some tool =>
    match jsonLoads arguments with
    | Except.error e => "Error executing tool '" ++ name ++ "': " ++ e
    | Except.ok args =>
      match tool.run args runtimeContext with
      | Except.error e => "Error executing tool '" ++ name ++ "': " ++ e
      | Except.ok result => pyStr result

/-- The state of one tool-execution phase: the conversation and trace
reached so far, and the pending raise if an append was rejected (the
conversation keeps everything appended before the raise, as the Python
object would). -/
structure PhaseResult where
  err : Option String
  prompt : PromptTemplate
  items : List RunItem
deriving Repr, DecidableEq

/-- The `for tc in tool_calls.values()` loop of `Runner.run`: per call,
append the tool-call message, execute the tool (total — errors are
absorbed into the output string), append the tool-output message and
trace it. -/
def runToolPhase (agent : Agent) (runtimeContext : Option (PyDict PyVal)) :
    List ToolCallRec → PromptTemplate → List RunItem → PhaseResult
  | [], prompt, items => { err := Option.none, prompt := prompt, items := items }
  | tc :: rest, prompt, items =>
    match prompt.addToolCall tc.name tc.arguments tc.call_id with
    | Except.error e => { err := Option.some e, prompt := prompt, items := items }
    | Except.ok p1 =>
      let out := runTool agent tc.name tc.arguments runtimeContext
      match p1.addToolOutput tc.call_id out with
      | Except.error e => { err := Option.some e, prompt := p1, items := items }
      | Except.ok p2 =>
        runToolPhase agent runtimeContext rest p2
          (items ++ [RunItem.toolCallOutputItem tc.call_id out tc.name])

/-- `literun/results.py` `RunResult` (the trace-typed variant the runner
builds). -/
structure RunResult where
  input : String
  new_items : List RunItem
  final_output : String
deriving Repr, DecidableEq

/-- The observable outcome of a run of the literun `Runner`: the result
or raise, the number of model calls made, and the final conversation
state (internal in the source; exposed by the model so conversation
invariants can be stated). -/
structure RunState where
  outcome : Except RunError RunResult
  modelCalls : Nat
  prompt : PromptTemplate
deriving Repr, DecidableEq

/-- The `while iteration < max_iterations` loop of `Runner.run`,
recursing on the remaining budget `fuel` with `k` the index of the next
model call; the model collaborator is the oracle `oracle`, giving the
output items of the response to the `k`-th call. Exhausted budget
raises the `RuntimeError` naming `max_iterations`; a turn without tool
calls returns the `RunResult`; otherwise the assistant text (if truthy)
is appended, the tools run in observed order, and the loop repeats. -/
def runAux (agent : Agent) (oracle : Nat → List OutputItem) (userInput : String)
    (runtimeContext : Option (PyDict PyVal)) :
    Nat → Nat → PromptTemplate → List RunItem → RunState
  | 0, _, prompt, _ =>
    { outcome := Except.error (RunError.runtimeError
        ("Agent exceeded max iterations (" ++ toString agent.max_iterations ++ ")"))
      modelCalls := 0
      prompt := prompt }
  | fuel + 1, k, prompt, items =>
    let scanned := scanOutput (oracle k)
    let items1 := items ++ scanned.2.2
    if scanned.1.isEmpty then
      { outcome := Except.ok
          { input := userInput, new_items := items1, final_output := scanned.2.1 }
        modelCalls := 1
        prompt := prompt }
    else
      match (if scanned.2.1 != "" then prompt.addAssistant scanned.2.1
             else Except.ok prompt) with
      | Except.error e =>
        { outcome := Except.error (RunError.validationError e)
          modelCalls := 1
          prompt := prompt }
      | Except.ok p1 =>
        let phase := runToolPhase agent runtimeContext (scanned.1.map (fun p => p.2))
          p1 items1
        match phase.err with
        | Option.some e =>
          { outcome := Except.error (RunError.validationError e)
            modelCalls := 1
            prompt := phase.prompt }
        | Option.none =>
          let rest := runAux agent oracle userInput runtimeContext fuel (k + 1)
            phase.prompt phase.items
          { outcome := rest.outcome
            modelCalls := rest.modelCalls + 1
            prompt := rest.prompt }

/-- `Runner._build_prompt`: fork the caller's template when given
(`prompt_template.copy()` — whose raise, the `AttributeError` from the
setter-less `messages` property, propagates), else a fresh template
with `add_system` when the system prompt is truthy (a pydantic raise
from the construction propagates); then `add_user` (likewise). -/
def buildPrompt (agent : Agent) (userInput : String)
    (template : Option PromptTemplate) : Except RunError PromptTemplate :=
  let base : Except RunError PromptTemplate :=
    match template with
    | Option.some t =>
      match t.copyPy with
      | Except.error e => Except.error (RunError.attributeError e)
      | Except.ok p => Except.ok p
    | Option.none =>
      match agent.system_prompt with
      | Option.some s =>
        if s != "" then
          match PromptTemplate.addSystem { messages := [] } s with
          | Except.error e => Except.error (RunError.validationError e)
          | Except.ok p => Except.ok p
        else Except.ok { messages := [] }
      | Option.none => Except.ok { messages := [] }
  match base with
  | Except.error e => Except.error e
  | Except.ok p =>
    match p.addUser userInput with
    | Except.error e => Except.error (RunError.validationError e)
    | Except.ok p2 => Except.ok p2

/-- `Runner.run`: reject empty user input before any model call, build
the conversation (a raise from `_build_prompt` propagates, before any
model call), then run the bounded loop. -/
def Runner.runM (agent : Agent) (oracle : Nat → List OutputItem) (userInput : String)
    (template : Option PromptTemplate) (runtimeContext : Option (PyDict PyVal)) :
    RunState :=
  if userInput == "" then
    { outcome := Except.error (RunError.valueError "user_input cannot be empty")
      modelCalls := 0
      prompt := { messages := [] } }
  else
    match buildPrompt agent userInput template with
    | Except.error e =>
      { outcome := Except.error e
        modelCalls := 0
        prompt := { messages := [] } }
    | Except.ok p0 =>
      runAux agent oracle userInput runtimeContext agent.max_iterations 0 p0 []

end Literun

namespace OpenAIAgent

/-- `openai_agent/prompt_message.py` `PromptMessage`: a plain container
— the constructor stores the fields with no validation; the variant
invariants are only checked later, in `to_openai_message`. -/
structure PromptMessage where
  role : Option String := Option.none
  content_type : String
  text : Option String := Option.none
  name : Option String := Option.none
  arguments : Option ArgsText := Option.none
  call_id : Option String := Option.none
  output : Option String := Option.none
deriving Repr, DecidableEq

/-- The message `PromptTemplate.system` constructs (note the
`DEVELOPER` role). -/
def systemMsg (text : String) : PromptMessage :=
  { role := Option.some "developer", content_type := "input_text",
    text := Option.some text }

/-- The message `PromptTemplate.user` constructs. -/
def userMsg (text : String) : PromptMessage :=
  { role := Option.some "user", content_type := "input_text",
    text := Option.some text }

/-- The message `PromptTemplate.tool_call` constructs. -/
def toolCallMsg (name : String) (arguments : ArgsText) (call_id : String) : PromptMessage :=
  { content_type := "function_call", name := Option.some name,
    arguments := Option.some arguments, call_id := Option.some call_id }

/-- The message `PromptTemplate.tool_output` constructs. -/
def toolOutputMsg (call_id : String) (output : String) : PromptMessage :=
  { content_type := "function_call_output", call_id := Option.some call_id,
    output := Option.some output }

/-- `openai_agent/tool.py` `Tool`: name, description, one synchronous
callable and a (mandatory) argument schema; the schema logic is shared
with literun's `ArgsSchema`. -/
structure Tool where
  name : String
  description : String := ""
  func : PyFunc
  args_schema : List Literun.ArgsSchema
  strict : Option Bool := Option.none

/-- `Tool.resolve_arguments`: validate and cast each declared argument
from the raw dict (no truthiness special case here: an empty schema
yields an empty parsed dict). -/
def Tool.resolveArguments (t : Tool) (raw : PyDict PyVal) : Except String (PyDict PyVal) :=
  Literun.resolveArgs t.args_schema raw

/-- `openai_agent/agent.py` `Agent`: the configuration `invoke` reads. -/
structure Agent where
  tools : List Tool := []
  system_prompt : Option String := Option.none
  max_iterations : Nat := 10

/-- `Agent._execute_tool`: an unknown name raises `ValueError`; argument
resolution raises its `ValueError`s; the callable is invoked directly
(no runtime-context injection on this path) and its raise propagates.
Nothing is caught here. -/
def executeTool (agent : Agent) (name : String) (args : PyDict PyVal) :
    Except RunError PyVal :=
  match agent.tools.find? (fun t => t.name == name) with
  | Option.none => Except.error (RunError.valueError ("Tool '" ++ name ++ "' not found"))
  | Option.some tool =>
    match tool.resolveArguments args with
    | Except.error e => Except.error (RunError.valueError e)
    | Except.ok parsed =>
      match tool.func.impl (parsed.map (fun p => (p.1, ArgVal.val p.2))) with
      | Except.error e => Except.error (RunError.exception e)
      | Except.ok v => Except.ok v

/-- The mutable state of one turn of `Agent.invoke`: the conversation,
the `tool_called` flag and the last message item's text. -/
structure TurnState where
  prompt : List PromptMessage
  tool_called : Bool
  final_output : Option String
deriving Repr, DecidableEq

/-- One turn's state together with the pending raise, if an item's
processing raised (the conversation keeps what was appended before). -/
structure TurnScan where
  err : Option RunError
  st : TurnState
deriving Repr, DecidableEq

/-- The `for item in response.output` loop of `Agent.invoke`: a
`function_call` item sets `tool_called`, appends the tool-call message,
parses the arguments and executes the tool inline — a raise here
propagates out of `invoke` — then appends the tool-output message; a
`message` item overwrites `final_output` with its joined `output_text`;
other item types are ignored. -/
def processItems (agent : Agent) : List OutputItem → TurnState → TurnScan
  | [], st => { err := Option.none, st := st }
  | it :: rest, st =>
    match it with
    | OutputItem.functionCall _ cid nm args =>
      let st1 : TurnState :=
        { prompt := st.prompt ++ [toolCallMsg nm args cid]
          tool_called := true
          final_output := st.final_output }
      match jsonLoads args with
      | Except.error e => { err := Option.some (RunError.valueError e), st := st1 }
      | Except.ok raw =>
        match executeTool agent nm raw with
        | Except.error e => { err := Option.some e, st := st1 }
        | Except.ok res =>
          processItems agent rest
            { st1 with prompt := st1.prompt ++ [toolOutputMsg cid (pyStr res)] }
    | OutputItem.message parts =>
      processItems agent rest { st with final_output := Option.some (joinOutputText parts) }
    | _ => processItems agent rest st

/-- The `for _ in range(self.max_iterations)` loop of `Agent.invoke`:
each pass makes one model call and processes its items; tool calls make
the loop continue, otherwise a present final output (even the empty
string) is returned, and a turn with neither is the protocol-violation
`RuntimeError`; an exhausted budget raises the max-iterations
`RuntimeError`. Returns the outcome, the number of model calls made and
the final conversation. -/
def invokeAux (agent : Agent) (oracle : Nat → List OutputItem) :
    Nat → Nat → List PromptMessage → Except RunError String × Nat × List PromptMessage
  | 0, _, prompt =>
    (Except.error (RunError.runtimeError
        ("Agent exceeded max iterations (" ++ toString agent.max_iterations ++ ")")),
     0, prompt)
  | fuel + 1, k, prompt =>
    let scan := processItems agent (oracle k)
      { prompt := prompt, tool_called := false, final_output := Option.none }
    match scan.err with
    | Option.some e => (Except.error e, 1, scan.st.prompt)
    | Option.none =>
      if scan.st.tool_called then
        let r := invokeAux agent oracle fuel (k + 1) scan.st.prompt
        (r.1, r.2.1 + 1, r.2.2)
      else
        match scan.st.final_output with
        | Option.some out => (Except.ok out, 1, scan.st.prompt)
        | Option.none =>
          (Except.error (RunError.runtimeError
              "Agent received neither a tool call nor a text message."),
           1, scan.st.prompt)

/-- `Agent._build_initial_prompt_messages`: copy the caller's template
when given (the copy in this package is a working list copy), else a
fresh template with the system message when the system prompt is
truthy; then append the user message. -/
def buildInitial (agent : Agent) (template : Option (List PromptMessage)) :
    List PromptMessage :=
  match template with
  | Option.some msgs => msgs
  | Option.none =>
    match agent.system_prompt with
    | Option.some s => if s != "" then [systemMsg s] else []
    | Option.none => []

/-- `Agent.invoke`: reject empty input before any model call, build the
initial conversation, then run the bounded loop. -/
def Agent.invoke (agent : Agent) (oracle : Nat → List OutputItem) (userInput : String)
    (template : Option (List PromptMessage)) :
    Except RunError String × Nat × List PromptMessage :=
  if userInput == "" then
    (Except.error (RunError.valueError "user_input cannot be empty"), 0, [])
  else
    invokeAux agent oracle agent.max_iterations 0
      (buildInitial agent template ++ [userMsg userInput])

/-- A store of list objects, so that `copy`'s `list(self.messages)` (a
fresh list sharing no identity with the original) is distinguishable
from aliasing: each `PromptTemplate` owns the list at its index. -/
structure TemplateStore where
  lists : List (List PromptMessage)
deriving Repr, DecidableEq

/-- The messages of the template owning index `r`. -/
def getMessages (h : TemplateStore) (r : Nat) : List PromptMessage :=
  h.lists.getD r []

/-- Rebind the list owned by index `r`. -/
def setMessages (h : TemplateStore) (r : Nat) (msgs : List PromptMessage) : TemplateStore :=
  { lists := h.lists.set r msgs }

/-- `PromptTemplate()`: allocate a fresh empty list object. -/
def newTemplate (h : TemplateStore) : TemplateStore × Nat :=
  ({ lists := h.lists ++ [[]] }, h.lists.length)

/-- `add_message`: append to the owned list in place. -/
def addMessageH (h : TemplateStore) (r : Nat) (m : PromptMessage) : TemplateStore :=
  setMessages h r (getMessages h r ++ [m])

/-- `openai_agent/prompt_template.py` `PromptTemplate.copy`: a new
template whose `messages` is `list(self.messages)` — a fresh list object
holding the same messages. -/
def copyH (h : TemplateStore) (r : Nat) : TemplateStore × Nat :=
  let fresh := newTemplate h
  (setMessages fresh.1 fresh.2 (getMessages fresh.1 r), fresh.2)

end OpenAIAgent

/-!
Verification-layer definitions: projections and invariant predicates over
conversation states, the computed initial prompt, the per-phase message
shapes, and the concrete fixtures evaluated by witnesses and
counterexamples.
-/

namespace Literun

/-- The `call_id`s of the tool-call messages of a conversation, in
order. -/
def toolCallIds (msgs : List PromptMessage) : List String :=
  msgs.filterMap (fun m => if m.content_type = "tool_call" then m.call_id else Option.none)

/-- The `call_id`s of the tool-output messages of a conversation, in
order. -/
def toolOutputIds (msgs : List PromptMessage) : List String :=
  msgs.filterMap
    (fun m => if m.content_type = "tool_call_output" then m.call_id else Option.none)

/-- The tool-output messages pair off with the tool-call messages: same
count, same `call_id`s, in the same order. -/
def balanced (msgs : List PromptMessage) : Prop :=
  toolOutputIds msgs = toolCallIds msgs

/-- In every initial segment of the conversation there are at least as
many tool-call messages as tool-output messages — so the matching call
of an output always stands at an earlier position. -/
def outputsNeverLead (msgs : List PromptMessage) : Prop :=
  ∀ j : Nat, (toolOutputIds (msgs.take j)).length ≤ (toolCallIds (msgs.take j)).length

end Literun

namespace OpenAIAgent

/-- The `call_id`s of the `function_call` messages of a conversation. -/
def oaToolCallIds (msgs : List PromptMessage) : List String :=
  msgs.filterMap
    (fun m => if m.content_type = "function_call" then m.call_id else Option.none)

/-- The `call_id`s of the `function_call_output` messages. -/
def oaToolOutputIds (msgs : List PromptMessage) : List String :=
  msgs.filterMap
    (fun m => if m.content_type = "function_call_output" then m.call_id else Option.none)

/-- Pairing of tool outputs with tool calls, as for literun. -/
def oaBalanced (msgs : List PromptMessage) : Prop :=
  oaToolOutputIds msgs = oaToolCallIds msgs

/-- Count dominance of calls over outputs on every initial segment. -/
def oaOutputsNeverLead (msgs : List PromptMessage) : Prop :=
  ∀ j : Nat, (oaToolOutputIds (msgs.take j)).length ≤ (oaToolCallIds (msgs.take j)).length

end OpenAIAgent

/-- An output item the agent loops ignore: neither a function call nor a
message. -/
def isInertItem : OutputItem → Bool
  | OutputItem.functionCall _ _ _ _ => false
  | OutputItem.message _ => false
  | _ => true

/-!
Concrete fixtures for witnesses and counterexamples.
-/

/-- A pure-schema tool: two int arguments, no callable needed for
resolution. -/
def wCalcTool : Literun.Tool :=
  { name := "calc"
    args_schema := Option.some
      [ { name := "a", type_ := PyType.int }, { name := "b", type_ := PyType.int } ] }

/-- A callable that always succeeds with the string `"ok"`. -/
def wEchoFunc : PyFunc := { hints := [], impl := fun _ => Except.ok (PyVal.str "ok") }

/-- A callable that always raises. -/
def wBoomFunc : PyFunc := { hints := [], impl := fun _ => Except.error "boom failed" }

/-- A callable declaring a `ToolRuntime`-annotated parameter `runtime`
next to a plain parameter `a`. -/
def wRuntimeFunc : PyFunc :=
  { hints := [("runtime", PyAnnot.toolRuntime), ("a", PyAnnot.plain)]
    impl := fun _ => Except.ok PyVal.none }

/-- A literun tool whose callable declares the runtime parameter. -/
def wRuntimeToolL : Literun.Tool :=
  { name := "greet"
    func := Option.some wRuntimeFunc
    args_schema := Option.some [ { name := "a", type_ := PyType.str } ] }

/-- A literun agent with no tools and a small budget. -/
def wAgentL : Literun.Agent := { max_iterations := 2 }

/-- A literun tool whose callable always raises. -/
def wFailToolL : Literun.Tool := { name := "fail", func := Option.some wBoomFunc }

/-- A literun agent holding the raising tool. -/
def wAgentFailL : Literun.Agent := { tools := [wFailToolL], max_iterations := 4 }

/-- A model that re-requests the same tool call on every turn. -/
def wLoopOracle : Nat → List OutputItem :=
  fun _ => [OutputItem.functionCall "i1" "c1" "echo" (ArgsText.obj [])]

/-- A model producing no output items at all. -/
def wEmptyOracle : Nat → List OutputItem := fun _ => []

/-- A model that calls an unregistered tool once and then answers. -/
def wGhostOracle : Nat → List OutputItem
  | 0 => [OutputItem.functionCall "i1" "c1" "ghost" (ArgsText.obj [])]
  | _ => [OutputItem.message [{ type := "output_text", text := "done" }]]

/-- A model that calls the raising `fail` tool once and then answers. -/
def wFailOracle : Nat → List OutputItem
  | 0 => [OutputItem.functionCall "i1" "c1" "fail" (ArgsText.obj [])]
  | _ => [OutputItem.message [{ type := "output_text", text := "done" }]]

/-- An openai_agent tool wrapping the always-succeeding callable. -/
def wEchoToolOA : OpenAIAgent.Tool :=
  { name := "echo", func := wEchoFunc, args_schema := [] }

/-- An openai_agent agent with the echo tool and a small budget. -/
def wAgentO : OpenAIAgent.Agent := { tools := [wEchoToolOA], max_iterations := 2 }

/-- A model that re-requests the echo tool on every turn. -/
def wEchoOracle : Nat → List OutputItem :=
  fun _ => [OutputItem.functionCall "i1" "c1" "echo" (ArgsText.obj [])]

/-- An openai_agent tool whose callable always raises. -/
def wBoomToolOA : OpenAIAgent.Tool :=
  { name := "boom", func := wBoomFunc, args_schema := [] }

/-- An openai_agent agent holding the raising tool. -/
def wAgentBoomO : OpenAIAgent.Agent := { tools := [wBoomToolOA], max_iterations := 3 }

/-- A model that requests the raising tool on its first turn. -/
def wBoomOracle : Nat → List OutputItem :=
  fun _ => [OutputItem.functionCall "i1" "c1" "boom" (ArgsText.obj [])]

/-- A template store holding one template with one message. -/
def wStore : OpenAIAgent.TemplateStore :=
  { lists := [[OpenAIAgent.userMsg "seed"]] }

/-- An enum-constrained string argument: `color` with allowed values
`red` and `green`. -/
def wColorArg : Literun.ArgsSchema :=
  { name := "color", type_ := PyType.str
    enum := Option.some [PyVal.str "red", PyVal.str "green"] }

/-!
Helper lemmas: dict reads and writes, and idempotence of the scalar
casts.
-/

theorem dget_cons {α : Type} (p : String × α) (rest : PyDict α) (k : String) (dfl : α) :
    dget (p :: rest) k dfl = if p.1 == k then p.2 else dget rest k dfl := by
  unfold dget
  by_cases h : (p.1 == k) = true
  · rw [@List.find?_cons_of_pos _ (fun q => q.1 == k) p rest h, if_pos h]
  · rw [@List.find?_cons_of_neg _ (fun q => q.1 == k) p rest h, if_neg h]

theorem dset_cons_ne {α : Type} {p : String × α} {rest : PyDict α} {k : String} {v : α}
    (h : (p.1 == k) = false) : dset (p :: rest) k v = p :: dset rest k v := by
  unfold dset
  have hany : (p :: rest).any (fun q => q.1 == k) = rest.any (fun q => q.1 == k) := by
    simp [List.any_cons, h]
  rw [hany]
  by_cases h2 : rest.any (fun q => q.1 == k) = true
  · rw [if_pos h2, if_pos h2, List.map_cons, if_neg (by simp [h])]
  · rw [if_neg h2, if_neg h2, List.cons_append]

theorem dset_cons_eq {α : Type} {p : String × α} {rest : PyDict α} {k : String} {v : α}
    (h : (p.1 == k) = true) :
    dset (p :: rest) k v = (k, v) :: rest.map (fun q => if q.1 == k then (k, v) else q) := by
  unfold dset
  have hany : (p :: rest).any (fun q => q.1 == k) = true := by
    simp [List.any_cons, h]
  rw [if_pos hany, List.map_cons, if_pos h]

theorem dget_dset_self {α : Type} {k : String} {v : α} {dfl : α} :
    ∀ d : PyDict α, dget (dset d k v) k dfl = v := by
  intro d
  induction d with
  | nil => simp [dset, dget]
  | cons p rest ih =>
    by_cases hp : (p.1 == k) = true
    · rw [dset_cons_eq hp, dget_cons]
      simp
    · have hp2 : (p.1 == k) = false := by simpa using hp
      rw [dset_cons_ne hp2, dget_cons, hp2]
      simpa using ih

theorem dget_map_dset_ne {α : Type} {k k2 : String} {v : α} {dfl : α}
    (h : (k2 == k) = false) :
    ∀ rest : PyDict α,
      dget (rest.map (fun q => if q.1 == k2 then (k2, v) else q)) k dfl = dget rest k dfl := by
  intro rest
  induction rest with
  | nil => rfl
  | cons q r ih =>
    by_cases hq : (q.1 == k2) = true
    · have hqk : q.1 = k2 := by simpa using hq
      have hqf : (q.1 == k) = false := by
        rw [hqk]; exact h
      simp only [List.map_cons, if_pos hq]
      rw [dget_cons, dget_cons]
      simp only [h, hqf, Bool.false_eq_true, if_false]
      exact ih
    · have hq2 : (q.1 == k2) = false := by simpa using hq
      simp only [List.map_cons, if_neg (by simp [hq2] : ¬ (q.1 == k2) = true)]
      rw [dget_cons, dget_cons]
      by_cases hqk : (q.1 == k) = true
      · simp [hqk]
      · have hqk2 : (q.1 == k) = false := by simpa using hqk
        simp only [hqk2, Bool.false_eq_true, if_false]
        exact ih

theorem dget_dset_ne {α : Type} {k k2 : String} {v : α} {dfl : α}
    (h : (k2 == k) = false) :
    ∀ d : PyDict α, dget (dset d k2 v) k dfl = dget d k dfl := by
  intro d
  induction d with
  | nil =>
    show dget ([] ++ [(k2, v)]) k dfl = dget [] k dfl
    rw [List.nil_append, dget_cons]
    simp [h, dget]
  | cons p rest ih =>
    by_cases hp : (p.1 == k2) = true
    · have hpk2 : p.1 = k2 := by simpa using hp
      have hpf : (p.1 == k) = false := by rw [hpk2]; exact h
      rw [dset_cons_eq hp, dget_cons, dget_cons]
      simp only [h, hpf, Bool.false_eq_true, if_false]
      exact dget_map_dset_ne h rest
    · have hp2 : (p.1 == k2) = false := by simpa using hp
      rw [dset_cons_ne hp2, dget_cons, dget_cons]
      by_cases hpk : (p.1 == k) = true
      · simp [hpk]
      · have hpk2 : (p.1 == k) = false := by simpa using hpk
        simp only [hpk2, Bool.false_eq_true, if_false]
        exact ih

theorem castStrPy_shape {v w : PyVal} (h : castStrPy v = Except.ok w) :
    w = PyVal.str (pyStr v) := by
  simpa [castStrPy] using h.symm

theorem castIntPy_shape {v w : PyVal} (h : castIntPy v = Except.ok w) :
    ∃ i : Int, w = PyVal.int i := by
  unfold castIntPy at h
  split at h
  · exact ⟨_, by simpa using h.symm⟩
  · exact ⟨_, by simpa using h.symm⟩
  · exact ⟨_, by simpa using h.symm⟩
  · split at h
    · exact ⟨_, by simpa using h.symm⟩
    · simp at h
  · simp at h

theorem castFloatPy_shape {v w : PyVal} (h : castFloatPy v = Except.ok w) :
    ∃ q : Rat, w = PyVal.float q := by
  unfold castFloatPy at h
  split at h
  · exact ⟨_, by simpa using h.symm⟩
  · exact ⟨_, by simpa using h.symm⟩
  · exact ⟨_, by simpa using h.symm⟩
  · split at h
    · exact ⟨_, by simpa using h.symm⟩
    · simp at h
  · simp at h

theorem castBoolPy_shape {v w : PyVal} (h : castBoolPy v = Except.ok w) :
    w = PyVal.bool (pyTruthy v) := by
  simpa [castBoolPy] using h.symm

theorem applyCast_ne_none {T : PyType} {v w : PyVal}
    (h : applyCast T v = Except.ok w) : w ≠ PyVal.none := by
  cases T with
  | str => rw [castStrPy_shape h]; intro hc; exact PyVal.noConfusion hc
  | int =>
    obtain ⟨i, hi⟩ := castIntPy_shape h
    rw [hi]; intro hc; exact PyVal.noConfusion hc
  | float =>
    obtain ⟨q, hq⟩ := castFloatPy_shape h
    rw [hq]; intro hc; exact PyVal.noConfusion hc
  | bool => rw [castBoolPy_shape h]; intro hc; exact PyVal.noConfusion hc

theorem applyCast_idem {T : PyType} {v w : PyVal}
    (h : applyCast T v = Except.ok w) : applyCast T w = Except.ok w := by
  cases T with
  | str => rw [castStrPy_shape h]; simp [applyCast, castStrPy, pyStr]
  | int =>
    obtain ⟨i, hi⟩ := castIntPy_shape h
    rw [hi]; rfl
  | float =>
    obtain ⟨q, hq⟩ := castFloatPy_shape h
    rw [hq]; rfl
  | bool => rw [castBoolPy_shape h]; simp [applyCast, castBoolPy, pyTruthy]

namespace Literun

theorem validateAndCast_idem {a : ArgsSchema} {v w : PyVal}
    (h : a.validateAndCast v = Except.ok w) : a.validateAndCast w = Except.ok w := by
  unfold ArgsSchema.validateAndCast at h ⊢
  by_cases hv : v = PyVal.none
  · simp [hv] at h
  · rw [if_neg hv] at h
    cases hc : applyCast a.type_ v with
    | error e => rw [hc] at h; exact absurd h (by simp)
    | ok w2 =>
      rw [hc] at h
      have hw : w2 = w := by simpa using h
      subst hw
      rw [if_neg (applyCast_ne_none hc), applyCast_idem hc]

end Literun

namespace Literun

theorem resolveArgsGo_preserve {raw : PyDict PyVal} {k : String} {dfl : PyVal} :
    ∀ (args : List ArgsSchema) (parsed vals : PyDict PyVal),
      (∀ a ∈ args, a.name ≠ k) →
      resolveArgsGo raw args parsed = Except.ok vals →
      dget vals k dfl = dget parsed k dfl := by
  intro args
  induction args with
  | nil =>
    intro parsed vals _ h
    have : parsed = vals := by simpa [resolveArgsGo] using h
    rw [this]
  | cons a rest ih =>
    intro parsed vals hk h
    unfold resolveArgsGo at h
    cases hc : a.validateAndCast (dget raw a.name PyVal.none) with
    | error e => rw [hc] at h; exact absurd h (by simp)
    | ok v =>
      rw [hc] at h
      have h1 := ih (dset parsed a.name v) vals
        (fun x hx => hk x (List.mem_cons_of_mem a hx)) h
      have hne : (a.name == k) = false := by
        simp [hk a (List.mem_cons_self a rest)]
      rw [h1, dget_dset_ne hne]

theorem resolveArgsGo_lookup {raw : PyDict PyVal} :
    ∀ (args : List ArgsSchema) (parsed vals : PyDict PyVal),
      (args.map ArgsSchema.name).Nodup →
      resolveArgsGo raw args parsed = Except.ok vals →
      ∀ a ∈ args, ∃ v, a.validateAndCast (dget raw a.name PyVal.none) = Except.ok v ∧
        dget vals a.name PyVal.none = v := by
  intro args
  induction args with
  | nil => intro _ _ _ _ a ha; exact absurd ha (List.not_mem_nil a)
  | cons a rest ih =>
    intro parsed vals hnd h x hx
    unfold resolveArgsGo at h
    cases hc : a.validateAndCast (dget raw a.name PyVal.none) with
    | error e => rw [hc] at h; exact absurd h (by simp)
    | ok v =>
      rw [hc] at h
      rcases List.mem_cons.mp hx with rfl | hx2
      · refine ⟨v, hc, ?_⟩
        have hnotin : ∀ b ∈ rest, b.name ≠ x.name := by
          intro b hb hbe
          have : x.name ∈ rest.map ArgsSchema.name := by
            rw [← hbe]; exact List.mem_map_of_mem ArgsSchema.name hb
          exact (List.nodup_cons.mp (by simpa using hnd)).1 this
        rw [resolveArgsGo_preserve rest _ vals hnotin h, dget_dset_self]
      · exact ih (dset parsed a.name v) vals
          (List.Nodup.of_cons (by simpa using hnd)) h x hx2

theorem resolveArgsGo_congr {raw vals : PyDict PyVal} :
    ∀ (args : List ArgsSchema) (parsed : PyDict PyVal),
      (∀ a ∈ args, a.validateAndCast (dget raw a.name PyVal.none)
          = a.validateAndCast (dget vals a.name PyVal.none)) →
      resolveArgsGo raw args parsed = resolveArgsGo vals args parsed := by
  intro args
  induction args with
  | nil => intro parsed _; rfl
  | cons a rest ih =>
    intro parsed hcongr
    unfold resolveArgsGo
    rw [← hcongr a (List.mem_cons_self a rest)]
    cases hc : a.validateAndCast (dget raw a.name PyVal.none) with
    | error e => rfl
    | ok v => exact ih _ (fun x hx => hcongr x (List.mem_cons_of_mem a hx))

/-- C8: for every tool whose declared argument names are distinct, and
every raw argument set the tool resolves successfully, resolution is
idempotent — resolving the already-resolved value set yields exactly the
same values. -/
theorem claim8_resolve_idempotent (t : Tool)
    (hnd : ((t.args_schema.getD []).map ArgsSchema.name).Nodup)
    (raw vals : PyDict PyVal)
    (h : t.resolveArguments raw = Except.ok vals) :
    t.resolveArguments vals = Except.ok vals := by
  cases hs : t.args_schema with
  | none => simp [Tool.resolveArguments, hs]
  | some args =>
    simp only [Tool.resolveArguments, hs] at h ⊢
    by_cases he : args.isEmpty
    · rw [if_pos he]
    · rw [if_neg he] at h
      rw [if_neg he]
      unfold resolveArgs at h ⊢
      have hnd2 : (args.map ArgsSchema.name).Nodup := by
        rw [hs] at hnd; simpa using hnd
      have hlook := resolveArgsGo_lookup args [] vals hnd2 h
      have hcong : ∀ a ∈ args,
          a.validateAndCast (dget vals a.name PyVal.none)
            = a.validateAndCast (dget raw a.name PyVal.none) := by
        intro a ha
        obtain ⟨v, hv, hl⟩ := hlook a ha
        rw [hl, validateAndCast_idem hv, hv]
      rw [resolveArgsGo_congr args [] hcong]
      exact h

/-- Witness for C8: the calc tool's two int arguments, fed the string
arguments a mock model produces; resolving once casts them to ints, and
resolving the cast values returns them unchanged. -/
theorem claim8_resolve_idempotent_witness :
    wCalcTool.resolveArguments [("a", PyVal.str "2"), ("b", PyVal.str "3")]
        = Except.ok [("a", PyVal.int 2), ("b", PyVal.int 3)] ∧
      wCalcTool.resolveArguments [("a", PyVal.int 2), ("b", PyVal.int 3)]
        = Except.ok [("a", PyVal.int 2), ("b", PyVal.int 3)] := by
  have h1 : wCalcTool.resolveArguments [("a", PyVal.str "2"), ("b", PyVal.str "3")]
      = Except.ok [("a", PyVal.int 2), ("b", PyVal.int 3)] := by decide
  exact ⟨h1, claim8_resolve_idempotent wCalcTool (by decide) _ _ h1⟩

end Literun

/-- C10: a declared enum constraint on a tool argument is never enforced
at invocation time — `validate_and_cast` is independent of the `enum`
field, and accepts a castable value outside the declared enum; the enum
surfaces only in the generated model-visible JSON schema. -/
theorem claim10_enum_not_enforced :
    (∀ (a : Literun.ArgsSchema) (e : Option (List PyVal)) (v : PyVal),
        Literun.ArgsSchema.validateAndCast { a with enum := e } v
          = Literun.ArgsSchema.validateAndCast a v) ∧
      wColorArg.validateAndCast (PyVal.str "blue") = Except.ok (PyVal.str "blue") ∧
      PyVal.str "blue" ∉ wColorArg.enum.getD [] ∧
      wColorArg.convertToJsonSchema
        = { type := "string", description := ""
            enum := Option.some [PyVal.str "red", PyVal.str "green"] } :=
  ⟨fun _ _ _ => rfl, by decide, by decide, by decide⟩

/-- C5 (code bug): in the literun sources as given, no `PromptMessage`
construction can ever succeed: the pydantic field annotation admits only
the `ContentType` literals of `constants.py`, every one of which the
`mode="after"` validator then rejects as unsupported, while the
validator's own variant tags — the ones `prompt.py` passes — fail the
field check first. In particular the fully-valid user message that
`add_user("Hello")` builds is rejected at construction, though the
domain validator itself accepts it. -/
theorem claim5_message_construction_rejected :
    (∀ m : Literun.PromptMessage, ∃ e, Literun.pydanticConstruct m = Except.error e) ∧
      Literun.pydanticConstruct (Literun.userMsg "Hello")
        = Except.error "Input should be a valid ContentType" ∧
      Literun.validateInvariants (Literun.userMsg "Hello")
        = Except.ok (Literun.userMsg "Hello") := by
  refine ⟨?_, by decide, by decide⟩
  intro m
  unfold Literun.pydanticConstruct
  by_cases hr : (!(Literun.pydanticRoleOk m)) = true
  · rw [if_pos hr]; exact ⟨_, rfl⟩
  · rw [if_neg hr]
    by_cases hct : Literun.contentTypeLiterals.contains m.content_type = true
    · rw [if_pos hct]
      have hmem : m.content_type ∈ Literun.contentTypeLiterals := by
        simpa using hct
      have h1 : ¬ m.content_type = "text" := by
        intro hh; rw [hh] at hmem; exact absurd hmem (by decide)
      have h2 : ¬ m.content_type = "tool_call" := by
        intro hh; rw [hh] at hmem; exact absurd hmem (by decide)
      have h3 : ¬ m.content_type = "tool_call_output" := by
        intro hh; rw [hh] at hmem; exact absurd hmem (by decide)
      unfold Literun.validateInvariants
      rw [if_neg h1, if_neg h2, if_neg h3]
      exact ⟨_, rfl⟩
    · rw [if_neg hct]; exact ⟨_, rfl⟩

namespace Literun

theorem injectRuntime_step (args : PyDict ArgVal) (ctx : Option (PyDict PyVal))
    (p : String × PyAnnot) (rest : PyDict PyAnnot) :
    injectRuntime args ctx (p :: rest)
      = injectRuntime
          (match p.2 with
           | PyAnnot.toolRuntime => dset args p.1 (ArgVal.runtime (ctx.getD []))
           | PyAnnot.plain => args) ctx rest := by
  cases hp : p.2 <;> simp [injectRuntime, List.foldl_cons, hp]

theorem injectRuntime_preserve {pname : String} {ctx : Option (PyDict PyVal)} :
    ∀ (hints : PyDict PyAnnot) (args : PyDict ArgVal),
      (∀ q ∈ hints, q.1 ≠ pname) →
      dget (injectRuntime args ctx hints) pname (ArgVal.val PyVal.none)
        = dget args pname (ArgVal.val PyVal.none) := by
  intro hints
  induction hints with
  | nil => intro args _; rfl
  | cons p rest ih =>
    intro args hq
    rw [injectRuntime_step]
    cases hp : p.2 with
    | toolRuntime =>
      rw [ih _ (fun q hqr => hq q (List.mem_cons_of_mem p hqr))]
      have hne : (p.1 == pname) = false := by
        simp [hq p (List.mem_cons_self p rest)]
      exact dget_dset_ne hne args
    | plain =>
      exact ih _ (fun q hqr => hq q (List.mem_cons_of_mem p hqr))

theorem injectRuntime_binds {pname : String} {ctx : Option (PyDict PyVal)} :
    ∀ (hints : PyDict PyAnnot) (args : PyDict ArgVal),
      (pname, PyAnnot.toolRuntime) ∈ hints →
      (hints.map Prod.fst).Nodup →
      dget (injectRuntime args ctx hints) pname (ArgVal.val PyVal.none)
        = ArgVal.runtime (ctx.getD []) := by
  intro hints
  induction hints with
  | nil => intro args h _; exact absurd h (List.not_mem_nil _)
  | cons p rest ih =>
    obtain ⟨p1, p2⟩ := p
    intro args hmem hnd
    rw [List.map_cons] at hnd
    obtain ⟨hnotin, hndr⟩ := List.nodup_cons.mp hnd
    rw [injectRuntime_step]
    rcases List.mem_cons.mp hmem with heq | hmem2
    · have h1 : pname = p1 := congrArg Prod.fst heq
      have h2 : PyAnnot.toolRuntime = p2 := congrArg Prod.snd heq
      subst h1
      subst h2
      have hrest : ∀ q ∈ rest, q.1 ≠ pname := by
        intro q hqr hqe
        exact hnotin (List.mem_map.mpr ⟨q, hqr, hqe⟩)
      rw [injectRuntime_preserve rest _ hrest]
      exact dget_dset_self _
    · cases hp : p2 with
      | toolRuntime => exact ih _ hmem2 hndr
      | plain => exact ih _ hmem2 hndr

/-- C7: for a tool whose callable declares a `ToolRuntime`-annotated
parameter, execution invokes the callable on the injected binding — that
parameter is bound to the runtime object built from the caller-supplied
key/value map (or from the empty one when none is supplied) — while the
model-visible schema is built from the declared `args_schema` alone, so
the runtime parameter (not being a declared argument) appears in neither
its properties nor its required list. -/
theorem claim7_runtime_injection_hidden (t : Tool) (f : PyFunc) (pname : String)
    (runtimeContext : Option (PyDict PyVal)) (args parsed : PyDict PyVal)
    (hf : t.func = Option.some f)
    (hhint : (pname, PyAnnot.toolRuntime) ∈ f.hints)
    (hnd : (f.hints.map Prod.fst).Nodup)
    (hres : t.resolveArguments args = Except.ok parsed)
    (hndecl : ∀ a ∈ t.args_schema.getD [], a.name ≠ pname) :
    t.run args runtimeContext = f.impl (t.finalArgs parsed runtimeContext f) ∧
      dget (t.finalArgs parsed runtimeContext f) pname (ArgVal.val PyVal.none)
        = ArgVal.runtime (runtimeContext.getD []) ∧
      t.convertToOpenaiTool.properties
        = (t.args_schema.getD []).map (fun a => (a.name, a.convertToJsonSchema)) ∧
      t.convertToOpenaiTool.required = (t.args_schema.getD []).map ArgsSchema.name ∧
      pname ∉ t.convertToOpenaiTool.properties.map Prod.fst ∧
      pname ∉ t.convertToOpenaiTool.required := by
  have hschema :
      (match t.args_schema with
        | Option.some args2 => if args2.isEmpty then [] else args2
        | Option.none => []) = t.args_schema.getD [] := by
    cases hs : t.args_schema with
    | none => rfl
    | some args2 =>
      by_cases he : args2.isEmpty
      · rw [List.isEmpty_iff.mp he]; simp
      · simp [he]
  refine ⟨?_, ?_, ?_, ?_, ?_, ?_⟩
  · simp only [Tool.run, hf, hres]
  · unfold Tool.finalArgs
    exact injectRuntime_binds f.hints _ hhint hnd
  · simp only [Tool.convertToOpenaiTool, hschema]
  · simp only [Tool.convertToOpenaiTool, hschema]
  · simp only [Tool.convertToOpenaiTool, hschema]
    intro hmem
    rw [List.map_map] at hmem
    obtain ⟨a, ha, hae⟩ := List.mem_map.mp hmem
    exact hndecl a ha hae
  · simp only [Tool.convertToOpenaiTool, hschema]
    intro hmem
    obtain ⟨a, ha, hae⟩ := List.mem_map.mp hmem
    exact hndecl a ha hae

end Literun

/-- Witness for C7: the greeting tool with a `runtime` parameter and one
declared string argument, run with a caller context; the callable
receives the injected runtime object, and the schema lists only `a`. -/
theorem claim7_runtime_injection_hidden_witness :
    wRuntimeToolL.run [("a", PyVal.str "hi")] (Option.some [("uid", PyVal.str "u1")])
        = wRuntimeFunc.impl
            (wRuntimeToolL.finalArgs [("a", PyVal.str "hi")]
              (Option.some [("uid", PyVal.str "u1")]) wRuntimeFunc) ∧
      dget (wRuntimeToolL.finalArgs [("a", PyVal.str "hi")]
          (Option.some [("uid", PyVal.str "u1")]) wRuntimeFunc)
          "runtime" (ArgVal.val PyVal.none)
        = ArgVal.runtime [("uid", PyVal.str "u1")] ∧
      wRuntimeToolL.convertToOpenaiTool.properties
        = (wRuntimeToolL.args_schema.getD []).map
            (fun a => (a.name, a.convertToJsonSchema)) ∧
      wRuntimeToolL.convertToOpenaiTool.required
        = (wRuntimeToolL.args_schema.getD []).map Literun.ArgsSchema.name ∧
      "runtime" ∉ wRuntimeToolL.convertToOpenaiTool.properties.map Prod.fst ∧
      "runtime" ∉ wRuntimeToolL.convertToOpenaiTool.required :=
  Literun.claim7_runtime_injection_hidden wRuntimeToolL wRuntimeFunc "runtime"
    (Option.some [("uid", PyVal.str "u1")]) [("a", PyVal.str "hi")]
    [("a", PyVal.str "hi")] rfl (by decide) (by decide) (by decide) (by decide)

namespace Literun

theorem addSystem_fails (t : PromptTemplate) (s : String) :
    t.addSystem s = Except.error "Input should be a valid ContentType" := rfl

theorem addUser_fails (t : PromptTemplate) (s : String) :
    t.addUser s = Except.error "Input should be a valid ContentType" := rfl

theorem addAssistant_fails (t : PromptTemplate) (s : String) :
    t.addAssistant s = Except.error "Input should be a valid ContentType" := rfl

theorem addToolCall_fails (t : PromptTemplate) (nm : String) (args : ArgsText)
    (cid : String) :
    t.addToolCall nm args cid = Except.error "Input should be a valid ContentType" := rfl

theorem addToolOutput_fails (t : PromptTemplate) (cid out : String) :
    t.addToolOutput cid out = Except.error "Input should be a valid ContentType" := rfl

theorem buildPrompt_fails_none (agent : Agent) (userInput : String) :
    buildPrompt agent userInput Option.none
      = Except.error (RunError.validationError "Input should be a valid ContentType") := by
  unfold buildPrompt
  cases hs : agent.system_prompt with
  | none => simp [addUser_fails]
  | some s =>
    by_cases he : (s != "") = true
    · simp [he, addSystem_fails]
    · simp [he, addUser_fails]

theorem buildPrompt_fails_some (agent : Agent) (userInput : String) (t : PromptTemplate) :
    buildPrompt agent userInput (Option.some t)
      = Except.error (RunError.attributeError
          "AttributeError: property messages of PromptTemplate object has no setter") := rfl

theorem runM_aborts (agent : Agent) (oracle : Nat → List OutputItem) (userInput : String)
    (ctx : Option (PyDict PyVal)) (hin : ¬ userInput = "") :
    ((Runner.runM agent oracle userInput Option.none ctx).outcome
        = Except.error (RunError.validationError "Input should be a valid ContentType") ∧
      (Runner.runM agent oracle userInput Option.none ctx).modelCalls = 0) ∧
    ∀ t : PromptTemplate,
      (Runner.runM agent oracle userInput (Option.some t) ctx).outcome
          = Except.error (RunError.attributeError
              "AttributeError: property messages of PromptTemplate object has no setter") ∧
        (Runner.runM agent oracle userInput (Option.some t) ctx).modelCalls = 0 := by
  constructor
  · unfold Runner.runM
    rw [if_neg (by simp [hin]), buildPrompt_fails_none]
    exact ⟨rfl, rfl⟩
  · intro t
    unfold Runner.runM
    rw [if_neg (by simp [hin]), buildPrompt_fails_some]
    exact ⟨rfl, rfl⟩

theorem runToolPhase_aborts (agent : Agent) (ctx : Option (PyDict PyVal))
    (tc : ToolCallRec) (rest : List ToolCallRec) (p : PromptTemplate)
    (items : List RunItem) :
    runToolPhase agent ctx (tc :: rest) p items
      = { err := Option.some "Input should be a valid ContentType", prompt := p,
          items := items } := by
  unfold runToolPhase
  rw [addToolCall_fails]

theorem runAux_emptyTurn (agent : Agent) (oracle : Nat → List OutputItem)
    (input : String) (ctx : Option (PyDict PyVal)) (fuel k : Nat)
    (p : PromptTemplate) (items : List RunItem)
    (hturn : (scanOutput (oracle k)).1 = []) :
    runAux agent oracle input ctx (fuel + 1) k p items
      = { outcome := Except.ok
            { input := input
              new_items := items ++ (scanOutput (oracle k)).2.2
              final_output := (scanOutput (oracle k)).2.1 }
          modelCalls := 1
          prompt := p } := by
  unfold runAux
  simp only [hturn, List.isEmpty_nil, if_true]

theorem runAux_prompt_fixed (agent : Agent) (oracle : Nat → List OutputItem)
    (input : String) (ctx : Option (PyDict PyVal)) :
    ∀ (fuel k : Nat) (p : PromptTemplate) (items : List RunItem),
      (runAux agent oracle input ctx fuel k p items).prompt = p := by
  intro fuel
  cases fuel with
  | zero => intro k p items; rfl
  | succ fuel =>
    intro k p items
    unfold runAux
    by_cases hie : (scanOutput (oracle k)).1.isEmpty = true
    · simp only [hie, if_true]
    · have hie2 : (scanOutput (oracle k)).1.isEmpty = false := by simpa using hie
      obtain ⟨q, l, hql⟩ : ∃ q l, (scanOutput (oracle k)).1 = q :: l := by
        cases hsc : (scanOutput (oracle k)).1 with
        | nil => rw [hsc] at hie2; exact absurd hie2 (by decide)
        | cons a l => exact ⟨a, l, rfl⟩
      simp only [hie2, Bool.false_eq_true, if_false]
      by_cases htxt : (((scanOutput (oracle k)).2.1 != "")) = true
      · simp only [htxt, if_true, addAssistant_fails]
      · have htxt2 : (((scanOutput (oracle k)).2.1 != "")) = false := by simpa using htxt
        simp only [htxt2, Bool.false_eq_true, if_false, hql, List.map_cons,
          runToolPhase_aborts]

end Literun

namespace OpenAIAgent

theorem invokeAux_budget (agent : Agent) (oracle : Nat → List OutputItem)
    (htool : ∀ (k : Nat) (p : List PromptMessage),
      (processItems agent (oracle k)
          { prompt := p, tool_called := false, final_output := Option.none }).err
          = Option.none ∧
        (processItems agent (oracle k)
            { prompt := p, tool_called := false, final_output := Option.none
              }).st.tool_called = true) :
    ∀ (fuel k : Nat) (p : List PromptMessage),
      (invokeAux agent oracle fuel k p).1
          = Except.error (RunError.runtimeError
              ("Agent exceeded max iterations (" ++ toString agent.max_iterations ++ ")")) ∧
        (invokeAux agent oracle fuel k p).2.1 = fuel := by
  intro fuel
  induction fuel with
  | zero => intro k p; exact ⟨rfl, rfl⟩
  | succ fuel ih =>
    intro k p
    obtain ⟨herr, hcalled⟩ := htool k p
    unfold invokeAux
    simp only [herr, hcalled, if_true]
    exact ⟨(ih (k + 1) _).1, by rw [(ih (k + 1) _).2]⟩

end OpenAIAgent

/-- C1 (code bug): the claimed budget behaviour holds in openai_agent —
with a model that re-requests a tool call on every turn, `Agent.invoke`
raises the max-iterations `RuntimeError` naming the configured limit
after exactly `max_iterations` model calls, never N+1 — but literun
`Runner.run` can never raise its budget error: `_build_prompt` already
raises, because `add_user`'s `PromptMessage` construction is rejected
by the pydantic `ContentType` field check (the defect settled under
C5), so every literun run — whatever the model would do — aborts with
that validation error after zero model calls. -/
theorem claim1_budget_exactly_N
    (agentL : Literun.Agent) (oracleL : Nat → List OutputItem) (inputL : String)
    (ctx : Option (PyDict PyVal)) (hinL : ¬ inputL = "")
    (agentO : OpenAIAgent.Agent) (oracleO : Nat → List OutputItem) (inputO : String)
    (tmplO : Option (List OpenAIAgent.PromptMessage))
    (hinO : ¬ inputO = "")
    (htoolO : ∀ (k : Nat) (p : List OpenAIAgent.PromptMessage),
      (OpenAIAgent.processItems agentO (oracleO k)
          { prompt := p, tool_called := false, final_output := Option.none }).err
          = Option.none ∧
        (OpenAIAgent.processItems agentO (oracleO k)
            { prompt := p, tool_called := false, final_output := Option.none
              }).st.tool_called = true) :
    ((Literun.Runner.runM agentL oracleL inputL Option.none ctx).outcome
        = Except.error (RunError.validationError "Input should be a valid ContentType") ∧
      (Literun.Runner.runM agentL oracleL inputL Option.none ctx).modelCalls = 0) ∧
    ((OpenAIAgent.Agent.invoke agentO oracleO inputO tmplO).1
        = Except.error (RunError.runtimeError
            ("Agent exceeded max iterations (" ++ toString agentO.max_iterations ++ ")")) ∧
      (OpenAIAgent.Agent.invoke agentO oracleO inputO tmplO).2.1
        = agentO.max_iterations) := by
  constructor
  · exact (Literun.runM_aborts agentL oracleL inputL ctx hinL).1
  · unfold OpenAIAgent.Agent.invoke
    rw [if_neg (by simp [hinO])]
    exact OpenAIAgent.invokeAux_budget agentO oracleO htoolO agentO.max_iterations 0 _

/-- Witness for C1: against models that request a tool call on every
turn, the openai_agent run (budget 2) raises the budget error after
exactly 2 model calls, while the literun run aborts with the pydantic
validation error after 0 model calls. -/
theorem claim1_budget_exactly_N_witness :
    ((Literun.Runner.runM wAgentL wLoopOracle "hi" Option.none Option.none).outcome
        = Except.error (RunError.validationError "Input should be a valid ContentType") ∧
      (Literun.Runner.runM wAgentL wLoopOracle "hi" Option.none Option.none).modelCalls
        = 0) ∧
    ((OpenAIAgent.Agent.invoke wAgentO wEchoOracle "hi" Option.none).1
        = Except.error (RunError.runtimeError
            ("Agent exceeded max iterations (" ++ toString wAgentO.max_iterations ++ ")")) ∧
      (OpenAIAgent.Agent.invoke wAgentO wEchoOracle "hi" Option.none).2.1
        = wAgentO.max_iterations) :=
  claim1_budget_exactly_N wAgentL wLoopOracle "hi" Option.none (by decide)
    wAgentO wEchoOracle "hi" Option.none (by decide)
    (fun _ _ => ⟨rfl, rfl⟩)

/-- Counterexample to C2 as stated: literun never raises a
protocol-violation error. The loop of `Runner.run`, started from a
concrete conversation, handles a model turn producing neither tool
calls nor text by returning a `RunResult` with empty final output after
that one model call (runner.py's `if not tool_calls` branch returns,
it does not raise); and `Runner.run` itself, on the same concrete
inputs, never reaches any model turn — it aborts before the first model
call with the pydantic validation error from `_build_prompt`, which is
not a protocol-violation `RuntimeError`. -/
theorem claim2_counterexample :
    Literun.runAux wAgentL wEmptyOracle "hi" Option.none 2 0 { messages := [] } []
        = { outcome := Except.ok { input := "hi", new_items := [], final_output := "" }
            modelCalls := 1
            prompt := { messages := [] } } ∧
      (Literun.Runner.runM wAgentL wEmptyOracle "hi" Option.none Option.none).outcome
        = Except.error (RunError.validationError "Input should be a valid ContentType") ∧
      (Literun.Runner.runM wAgentL wEmptyOracle "hi" Option.none Option.none).modelCalls
        = 0 := by
  exact ⟨by decide, by decide, by decide⟩

namespace OpenAIAgent

theorem processItems_inert (agent : Agent) :
    ∀ (items : List OutputItem) (st : TurnState),
      (∀ it ∈ items, isInertItem it = true) →
      processItems agent items st = { err := Option.none, st := st } := by
  intro items
  induction items with
  | nil => intro st _; rfl
  | cons it rest ih =>
    intro st hinert
    cases it with
    | functionCall id cid nm args =>
      exact absurd (hinert _ (List.mem_cons_self _ rest)) (by simp [isInertItem])
    | message parts =>
      exact absurd (hinert _ (List.mem_cons_self _ rest)) (by simp [isInertItem])
    | reasoning c =>
      exact ih st (fun x hx => hinert x (List.mem_cons_of_mem _ hx))
    | other =>
      exact ih st (fun x hx => hinert x (List.mem_cons_of_mem _ hx))

end OpenAIAgent

/-- C2 amended: a model turn producing neither tool-call items nor text
is fatal only in openai_agent `Agent.invoke`, which raises the
protocol-violation `RuntimeError` immediately (after one model call, no
retry). The literun loop has no such check: started from any
conversation state, it treats a turn without tool calls as terminal
success and returns the `RunResult` carrying that turn's (here empty)
final output. And in the source as given no literun run reaches a model
turn at all: `Runner.run` aborts in `_build_prompt` with the pydantic
validation error after zero model calls. -/
theorem claim2_amended_protocol_violation
    (agentL : Literun.Agent) (oracleL : Nat → List OutputItem) (inputL : String)
    (ctx : Option (PyDict PyVal)) (fuel k : Nat) (p : Literun.PromptTemplate)
    (items : List Literun.RunItem)
    (hinL : ¬ inputL = "")
    (hturnL : (Literun.scanOutput (oracleL k)).1 = [])
    (agentO : OpenAIAgent.Agent) (oracleO : Nat → List OutputItem) (inputO : String)
    (tmplO : Option (List OpenAIAgent.PromptMessage))
    (hinO : ¬ inputO = "") (hmaxO : 1 ≤ agentO.max_iterations)
    (hturnO : ∀ it ∈ oracleO 0, isInertItem it = true) :
    (Literun.runAux agentL oracleL inputL ctx (fuel + 1) k p items
        = { outcome := Except.ok
              { input := inputL
                new_items := items ++ (Literun.scanOutput (oracleL k)).2.2
                final_output := (Literun.scanOutput (oracleL k)).2.1 }
            modelCalls := 1
            prompt := p }) ∧
    ((Literun.Runner.runM agentL oracleL inputL Option.none ctx).outcome
        = Except.error (RunError.validationError "Input should be a valid ContentType") ∧
      (Literun.Runner.runM agentL oracleL inputL Option.none ctx).modelCalls = 0) ∧
    ((OpenAIAgent.Agent.invoke agentO oracleO inputO tmplO).1
        = Except.error (RunError.runtimeError
            "Agent received neither a tool call nor a text message.") ∧
      (OpenAIAgent.Agent.invoke agentO oracleO inputO tmplO).2.1 = 1) := by
  refine ⟨Literun.runAux_emptyTurn agentL oracleL inputL ctx fuel k p items hturnL,
    (Literun.runM_aborts agentL oracleL inputL ctx hinL).1, ?_⟩
  obtain ⟨f, hf⟩ : ∃ f, agentO.max_iterations = f + 1 :=
    ⟨agentO.max_iterations - 1, (Nat.succ_pred_eq_of_pos hmaxO).symm⟩
  unfold OpenAIAgent.Agent.invoke
  rw [if_neg (by simp [hinO]), hf]
  unfold OpenAIAgent.invokeAux
  simp only [OpenAIAgent.processItems_inert agentO (oracleO 0) _ hturnO]
  exact ⟨rfl, rfl⟩

/-- Witness for C2's amended statement: against a model producing no
output items, the literun loop (from the empty conversation) returns an
empty result after one model call, literun `Runner.run` aborts with the
validation error after zero model calls, and the openai_agent run raises
the protocol-violation error after one model call. -/
theorem claim2_amended_protocol_violation_witness :
    (Literun.runAux wAgentL wEmptyOracle "hi" Option.none 2 0 { messages := [] } []
        = { outcome := Except.ok
              { input := "hi"
                new_items := [] ++ (Literun.scanOutput (wEmptyOracle 0)).2.2
                final_output := (Literun.scanOutput (wEmptyOracle 0)).2.1 }
            modelCalls := 1
            prompt := { messages := [] } }) ∧
    ((Literun.Runner.runM wAgentL wEmptyOracle "hi" Option.none Option.none).outcome
        = Except.error (RunError.validationError "Input should be a valid ContentType") ∧
      (Literun.Runner.runM wAgentL wEmptyOracle "hi" Option.none Option.none).modelCalls
        = 0) ∧
    ((OpenAIAgent.Agent.invoke wAgentO wEmptyOracle "hi" Option.none).1
        = Except.error (RunError.runtimeError
            "Agent received neither a tool call nor a text message.") ∧
      (OpenAIAgent.Agent.invoke wAgentO wEmptyOracle "hi" Option.none).2.1 = 1) :=
  claim2_amended_protocol_violation wAgentL wEmptyOracle "hi" Option.none 1 0
    { messages := [] } [] (by decide) (by decide) wAgentO wEmptyOracle "hi" Option.none
    (by decide) (by decide) (by decide)

/-- C9 (code bug): `Runner._run_tool` itself behaves as the claim says —
an unregistered name yields the string `Error: Tool '<name>' not found`,
with no raise — but the rest of the claim fails in the source as given:
the run does not continue, because no run reaches tool execution at all.
The loop's own `add_tool_call` append, which precedes `_run_tool`, is
rejected by the pydantic `ContentType` field check (the defect settled
under C5), aborting the turn before any tool output could be appended;
and `Runner.run` aborts even earlier, in `_build_prompt`, with the same
validation error after zero model calls. -/
theorem claim9_unknown_tool_not_found (agent : Literun.Agent)
    (oracle : Nat → List OutputItem) (input : String) (ctx : Option (PyDict PyVal))
    (nm : String) (at_ : ArgsText)
    (tc : Literun.ToolCallRec) (rest : List Literun.ToolCallRec)
    (p : Literun.PromptTemplate) (items : List Literun.RunItem)
    (hin : ¬ input = "")
    (hunknown : Literun.lookupTool agent.tools nm = Option.none) :
    Literun.runTool agent nm at_ ctx = "Error: Tool '" ++ nm ++ "' not found" ∧
      Literun.runToolPhase agent ctx (tc :: rest) p items
        = { err := Option.some "Input should be a valid ContentType", prompt := p,
            items := items } ∧
      ((Literun.Runner.runM agent oracle input Option.none ctx).outcome
          = Except.error (RunError.validationError "Input should be a valid ContentType") ∧
        (Literun.Runner.runM agent oracle input Option.none ctx).modelCalls = 0) := by
  refine ⟨?_, Literun.runToolPhase_aborts agent ctx tc rest p items,
    (Literun.runM_aborts agent oracle input ctx hin).1⟩
  unfold Literun.runTool
  rw [hunknown]

/-- Counterexample to C3 as stated: in openai_agent, an exception raised
by a tool callable is NOT caught and converted into the tool's output —
it propagates out of `Agent.invoke` after one model call, aborting the
conversation. -/
theorem claim3_counterexample :
    (OpenAIAgent.Agent.invoke wAgentBoomO wBoomOracle "hi" Option.none).1
        = Except.error (RunError.exception "boom failed") ∧
      (OpenAIAgent.Agent.invoke wAgentBoomO wBoomOracle "hi" Option.none).2.1 = 1 :=
  ⟨rfl, rfl⟩

/-- C3 amended: in literun only the conversion itself holds:
`Runner._run_tool` catches any raise from argument parsing, resolution
or the callable and returns the short string
`Error executing tool '<name>': <e>` — it never raises. But the
containment cannot be observed in a run of the source as given: the
loop's `add_tool_call` append, which precedes `_run_tool`, is rejected
by the pydantic `ContentType` field check, aborting the turn with the
conversation unchanged, and `Runner.run` aborts even earlier in
`_build_prompt` after zero model calls. In openai_agent nothing is
caught: the raise from `Agent._execute_tool` propagates out of
`Agent.invoke` unchanged. -/
theorem claim3_amended_error_containment (agent : Literun.Agent)
    (oracle : Nat → List OutputItem) (input : String) (ctx : Option (PyDict PyVal))
    (nm e : String) (at_ : ArgsText) (tool : Literun.Tool) (args : PyDict PyVal)
    (tc : Literun.ToolCallRec) (rest : List Literun.ToolCallRec)
    (p : Literun.PromptTemplate) (items : List Literun.RunItem)
    (hin : ¬ input = "")
    (hfound : Literun.lookupTool agent.tools nm = Option.some tool)
    (hjson : jsonLoads at_ = Except.ok args)
    (hrun : tool.run args ctx = Except.error e)
    (agentO : OpenAIAgent.Agent) (oracleO : Nat → List OutputItem) (inputO : String)
    (tmplO : Option (List OpenAIAgent.PromptMessage)) (er : RunError)
    (hinO : ¬ inputO = "") (hmaxO : 1 ≤ agentO.max_iterations)
    (herrO : ∀ p2, (OpenAIAgent.processItems agentO (oracleO 0)
        { prompt := p2, tool_called := false, final_output := Option.none }).err
        = Option.some er) :
    Literun.runTool agent nm at_ ctx = "Error executing tool '" ++ nm ++ "': " ++ e ∧
      Literun.runToolPhase agent ctx (tc :: rest) p items
        = { err := Option.some "Input should be a valid ContentType", prompt := p,
            items := items } ∧
      ((Literun.Runner.runM agent oracle input Option.none ctx).outcome
          = Except.error (RunError.validationError "Input should be a valid ContentType") ∧
        (Literun.Runner.runM agent oracle input Option.none ctx).modelCalls = 0) ∧
      (OpenAIAgent.Agent.invoke agentO oracleO inputO tmplO).1 = Except.error er := by
  have hrt : Literun.runTool agent nm at_ ctx
      = "Error executing tool '" ++ nm ++ "': " ++ e := by
    unfold Literun.runTool
    rw [hfound]
    dsimp only
    rw [hjson]
    dsimp only
    rw [hrun]
  have hoa : (OpenAIAgent.Agent.invoke agentO oracleO inputO tmplO).1
      = Except.error er := by
    obtain ⟨g, hg⟩ : ∃ g, agentO.max_iterations = g + 1 :=
      ⟨agentO.max_iterations - 1, (Nat.succ_pred_eq_of_pos hmaxO).symm⟩
    unfold OpenAIAgent.Agent.invoke
    rw [if_neg (by simp [hinO]), hg]
    unfold OpenAIAgent.invokeAux
    simp only [herrO]
  exact ⟨hrt, Literun.runToolPhase_aborts agent ctx tc rest p items,
    (Literun.runM_aborts agent oracle input ctx hin).1, hoa⟩

/-- Witness for C9: an agent with no tools, a `ghost` tool-call record:
`_run_tool` yields the not-found string, the tool phase on that record
aborts with the validation error leaving the conversation unchanged,
and the run against a model that would first call `ghost` aborts with
the same error after zero model calls. -/
theorem claim9_unknown_tool_not_found_witness :
    Literun.runTool wAgentL "ghost" (ArgsText.obj []) Option.none
        = "Error: Tool '" ++ "ghost" ++ "' not found" ∧
      Literun.runToolPhase wAgentL Option.none
          [{ call_id := "c1", name := "ghost", arguments := ArgsText.obj [] }]
          { messages := [] } []
        = { err := Option.some "Input should be a valid ContentType"
            prompt := { messages := [] }
            items := [] } ∧
      ((Literun.Runner.runM wAgentL wGhostOracle "hi" Option.none Option.none).outcome
          = Except.error (RunError.validationError "Input should be a valid ContentType") ∧
        (Literun.Runner.runM wAgentL wGhostOracle "hi" Option.none Option.none).modelCalls
          = 0) :=
  claim9_unknown_tool_not_found wAgentL wGhostOracle "hi" Option.none
    "ghost" (ArgsText.obj [])
    { call_id := "c1", name := "ghost", arguments := ArgsText.obj [] } []
    { messages := [] } [] (by decide) rfl

/-- Witness for C3's amended statement: the raising `fail` tool under
literun has its exception rendered as the execution-error string by
`_run_tool`; the tool phase on its call record nonetheless aborts with
the validation error, the full run aborts after zero model calls, and
the same callable under openai_agent propagates its exception out of
`invoke`. -/
theorem claim3_amended_error_containment_witness :
    Literun.runTool wAgentFailL "fail" (ArgsText.obj []) Option.none
        = "Error executing tool '" ++ "fail" ++ "': " ++ "boom failed" ∧
      Literun.runToolPhase wAgentFailL Option.none
          [{ call_id := "c1", name := "fail", arguments := ArgsText.obj [] }]
          { messages := [] } []
        = { err := Option.some "Input should be a valid ContentType"
            prompt := { messages := [] }
            items := [] } ∧
      ((Literun.Runner.runM wAgentFailL wFailOracle "hi" Option.none Option.none).outcome
          = Except.error (RunError.validationError "Input should be a valid ContentType") ∧
        (Literun.Runner.runM wAgentFailL wFailOracle "hi" Option.none
            Option.none).modelCalls = 0) ∧
      (OpenAIAgent.Agent.invoke wAgentBoomO wBoomOracle "hi" Option.none).1
        = Except.error (RunError.exception "boom failed") :=
  claim3_amended_error_containment wAgentFailL wFailOracle "hi" Option.none
    "fail" "boom failed" (ArgsText.obj []) wFailToolL []
    { call_id := "c1", name := "fail", arguments := ArgsText.obj [] } []
    { messages := [] } [] (by decide) rfl rfl rfl
    wAgentBoomO wBoomOracle "hi" Option.none
    (RunError.exception "boom failed") (by decide) (by decide) (fun _ => rfl)

namespace OpenAIAgent

theorem addMessageH_other (h : TemplateStore) (r r2 : Nat) (m : PromptMessage)
    (hne : r2 ≠ r) : getMessages (addMessageH h r2 m) r = getMessages h r := by
  unfold addMessageH setMessages getMessages
  simp [List.getD, List.getElem?_set_ne, hne]

theorem foldAdd_other (r r2 : Nat) (hne : r2 ≠ r) :
    ∀ (ms : List PromptMessage) (h : TemplateStore),
      getMessages (ms.foldl (fun acc m => addMessageH acc r2 m) h) r
        = getMessages h r := by
  intro ms
  induction ms with
  | nil => intro h; rfl
  | cons m rest ih =>
    intro h
    rw [List.foldl_cons, ih, addMessageH_other h r r2 m hne]

theorem getMessages_copyH_base (h : TemplateStore) (r : Nat) (hr : r < h.lists.length) :
    getMessages (copyH h r).1 r = getMessages h r := by
  unfold copyH newTemplate setMessages getMessages
  dsimp only
  rw [show ∀ l : List (List PromptMessage), List.getD l r [] = l.getD r [] from fun _ => rfl]
  simp [List.getD, List.getElem?_set_ne (Nat.ne_of_gt hr)]
  rw [List.getElem?_append_left hr]

end OpenAIAgent

/-- C6 (code bug): literun's `PromptTemplate.copy` never returns a copy —
its assignment `new.messages = list(self.messages)` targets the
getter-only `messages` property, so pydantic's attribute dispatch raises
and the method fails on every template. The openai_agent
`PromptTemplate.copy` has the claimed behaviour: the copy is a fresh
list object holding the same message sequence, and appending any run of
messages to the copy leaves the original template's messages unchanged. -/
theorem claim6_copy_code_bug (tL : Literun.PromptTemplate)
    (h : OpenAIAgent.TemplateStore) (r : Nat) (hr : r < h.lists.length)
    (ms : List OpenAIAgent.PromptMessage) :
    Literun.PromptTemplate.copyPy tL
        = Except.error
            "AttributeError: property messages of PromptTemplate object has no setter" ∧
      OpenAIAgent.getMessages (OpenAIAgent.copyH h r).1 (OpenAIAgent.copyH h r).2
        = OpenAIAgent.getMessages h r ∧
      (OpenAIAgent.copyH h r).2 ≠ r ∧
      OpenAIAgent.getMessages
          (ms.foldl
            (fun acc m => OpenAIAgent.addMessageH acc (OpenAIAgent.copyH h r).2 m)
            (OpenAIAgent.copyH h r).1) r
        = OpenAIAgent.getMessages h r := by
  have hne : (OpenAIAgent.copyH h r).2 ≠ r := by
    show h.lists.length ≠ r
    exact Nat.ne_of_gt hr
  refine ⟨rfl, ?_, hne, ?_⟩
  · show ((h.lists ++ [[]]).set h.lists.length
        ((h.lists ++ [[]]).getD r [])).getD h.lists.length []
      = h.lists.getD r []
    have hlen : h.lists.length < (h.lists ++ [[]]).length := by simp
    have h1 : ((h.lists ++ [[]]).set h.lists.length
        ((h.lists ++ [[]]).getD r [])).getD h.lists.length []
        = (h.lists ++ [[]]).getD r [] := by
      simp [List.getD, List.getElem?_set_self, hlen]
    rw [h1]
    exact List.getD_append _ _ _ _ hr
  · rw [OpenAIAgent.foldAdd_other r (OpenAIAgent.copyH h r).2 hne ms (OpenAIAgent.copyH h r).1]
    exact OpenAIAgent.getMessages_copyH_base h r hr

/-- Witness for C6: a store with one seeded template: copying it yields
the same single message, the copy is a different list object, and
appending a message to the copy leaves the original's messages equal to
the seed. -/
theorem claim6_copy_code_bug_witness :
    Literun.PromptTemplate.copyPy { messages := [] }
        = Except.error
            "AttributeError: property messages of PromptTemplate object has no setter" ∧
      OpenAIAgent.getMessages (OpenAIAgent.copyH wStore 0).1 (OpenAIAgent.copyH wStore 0).2
        = OpenAIAgent.getMessages wStore 0 ∧
      (OpenAIAgent.copyH wStore 0).2 ≠ 0 ∧
      OpenAIAgent.getMessages
          ([OpenAIAgent.userMsg "extra"].foldl
            (fun acc m => OpenAIAgent.addMessageH acc (OpenAIAgent.copyH wStore 0).2 m)
            (OpenAIAgent.copyH wStore 0).1) 0
        = OpenAIAgent.getMessages wStore 0 :=
  claim6_copy_code_bug { messages := [] } wStore 0 (by decide)
    [OpenAIAgent.userMsg "extra"]

namespace Literun

theorem balanced_nil : balanced [] := rfl

theorem outputsNeverLead_nil : outputsNeverLead [] := by
  intro j
  simp [toolCallIds, toolOutputIds]

theorem runAux_delta (agent : Agent) (oracle : Nat → List OutputItem) (input : String)
    (ctx : Option (PyDict PyVal)) (fuel k : Nat) (p : PromptTemplate)
    (items : List RunItem) :
    ∃ d, (runAux agent oracle input ctx fuel k p items).prompt.messages
        = p.messages ++ d ∧ balanced d ∧ outputsNeverLead d :=
  ⟨[], by rw [runAux_prompt_fixed, List.append_nil], balanced_nil, outputsNeverLead_nil⟩

end Literun

namespace OpenAIAgent

theorem oaToolCallIds_append (l1 l2 : List PromptMessage) :
    oaToolCallIds (l1 ++ l2) = oaToolCallIds l1 ++ oaToolCallIds l2 :=
  List.filterMap_append l1 l2 _

theorem oaToolOutputIds_append (l1 l2 : List PromptMessage) :
    oaToolOutputIds (l1 ++ l2) = oaToolOutputIds l1 ++ oaToolOutputIds l2 :=
  List.filterMap_append l1 l2 _

theorem oaBalanced_nil : oaBalanced [] := rfl

theorem oaOutputsNeverLead_nil : oaOutputsNeverLead [] := by
  intro j
  simp [oaToolCallIds, oaToolOutputIds]

theorem oaBalanced_append {d1 d2 : List PromptMessage}
    (h1 : oaBalanced d1) (h2 : oaBalanced d2) : oaBalanced (d1 ++ d2) := by
  unfold oaBalanced at h1 h2 ⊢
  rw [oaToolCallIds_append, oaToolOutputIds_append, h1, h2]

theorem oaOutputsNeverLead_append {d1 d2 : List PromptMessage}
    (h1 : oaOutputsNeverLead d1) (h2 : oaOutputsNeverLead d2) :
    oaOutputsNeverLead (d1 ++ d2) := by
  intro j
  rw [List.take_append_eq_append_take, oaToolOutputIds_append, oaToolCallIds_append,
    List.length_append, List.length_append]
  exact Nat.add_le_add (h1 j) (h2 (j - d1.length))

theorem oaPair_balanced (nm : String) (a : ArgsText) (cid out : String) :
    oaBalanced [toolCallMsg nm a cid, toolOutputMsg cid out] := rfl

theorem oaPair_outputsNeverLead (nm : String) (a : ArgsText) (cid out : String) :
    oaOutputsNeverLead [toolCallMsg nm a cid, toolOutputMsg cid out] := by
  intro j
  match j with
  | 0 => simp [oaToolCallIds, oaToolOutputIds]
  | 1 =>
    show (oaToolOutputIds [toolCallMsg nm a cid]).length
        ≤ (oaToolCallIds [toolCallMsg nm a cid]).length
    simp [oaToolCallIds, oaToolOutputIds, toolCallMsg]
  | (j + 2) =>
    rw [List.take_of_length_le (by simp)]
    simp [oaToolCallIds, oaToolOutputIds, toolCallMsg, toolOutputMsg]

theorem oaCall_single (nm : String) (a : ArgsText) (cid : String) :
    oaOutputsNeverLead [toolCallMsg nm a cid] := by
  intro j
  match j with
  | 0 => simp [oaToolCallIds, oaToolOutputIds]
  | (j + 1) =>
    rw [List.take_of_length_le (by simp)]
    simp [oaToolCallIds, oaToolOutputIds, toolCallMsg]

theorem processItems_delta (agent : Agent) :
    ∀ (items : List OutputItem) (st : TurnState),
      ∃ d, (processItems agent items st).st.prompt = st.prompt ++ d ∧
        oaOutputsNeverLead d ∧
        ((processItems agent items st).err = Option.none → oaBalanced d) := by
  intro items
  induction items with
  | nil =>
    intro st
    exact ⟨[], by simp [processItems], oaOutputsNeverLead_nil, fun _ => oaBalanced_nil⟩
  | cons it rest ih =>
    intro st
    cases it with
    | reasoning c => exact ih st
    | other => exact ih st
    | message parts =>
      exact ih { st with final_output := Option.some (joinOutputText parts) }
    | functionCall id cid nm args =>
      show ∃ d, (processItems agent (OutputItem.functionCall id cid nm args :: rest) st
          ).st.prompt = st.prompt ++ d ∧ _
      unfold processItems
      cases hj : jsonLoads args with
      | error e =>
        simp only [hj]
        refine ⟨[toolCallMsg nm args cid], rfl, oaCall_single nm args cid, ?_⟩
        intro hcontra
        exact absurd hcontra (by simp)
      | ok raw =>
        simp only [hj]
        cases hex : executeTool agent nm raw with
        | error er =>
          simp only [hex]
          refine ⟨[toolCallMsg nm args cid], rfl, oaCall_single nm args cid, ?_⟩
          intro hcontra
          exact absurd hcontra (by simp)
        | ok res =>
          simp only [hex]
          obtain ⟨d2, hd2, hm2, hb2⟩ := ih
            { prompt := st.prompt ++ [toolCallMsg nm args cid]
                ++ [toolOutputMsg cid (pyStr res)]
              tool_called := true
              final_output := st.final_output }
          refine ⟨[toolCallMsg nm args cid, toolOutputMsg cid (pyStr res)] ++ d2, ?_,
            oaOutputsNeverLead_append (oaPair_outputsNeverLead _ _ _ _) hm2, ?_⟩
          · rw [hd2]
            simp [List.append_assoc]
          · intro hnone
            exact oaBalanced_append (oaPair_balanced _ _ _ _) (hb2 hnone)

theorem invokeAux_delta (agent : Agent) (oracle : Nat → List OutputItem) :
    ∀ (fuel k : Nat) (p : List PromptMessage),
      ∃ d, (invokeAux agent oracle fuel k p).2.2 = p ++ d ∧
        oaOutputsNeverLead d ∧
        (∀ s, (invokeAux agent oracle fuel k p).1 = Except.ok s → oaBalanced d) := by
  intro fuel
  induction fuel with
  | zero =>
    intro k p
    refine ⟨[], by simp [invokeAux], oaOutputsNeverLead_nil, ?_⟩
    intro s hs
    exact absurd hs (by simp [invokeAux])
  | succ fuel ih =>
    intro k p
    obtain ⟨d1, hd1, hm1, hb1⟩ := processItems_delta agent (oracle k)
      { prompt := p, tool_called := false, final_output := Option.none }
    unfold invokeAux
    cases herr : (processItems agent (oracle k)
        { prompt := p, tool_called := false, final_output := Option.none }).err with
    | some e =>
      simp only [herr]
      refine ⟨d1, hd1, hm1, ?_⟩
      intro s hs
      exact absurd hs (by simp)
    | none =>
      simp only [herr]
      by_cases hcall : (processItems agent (oracle k)
          { prompt := p, tool_called := false, final_output := Option.none
            }).st.tool_called = true
      · simp only [hcall, if_true]
        obtain ⟨d2, hd2, hm2, hb2⟩ := ih (k + 1)
          (processItems agent (oracle k)
            { prompt := p, tool_called := false, final_output := Option.none }).st.prompt
        refine ⟨d1 ++ d2, ?_, oaOutputsNeverLead_append hm1 hm2, ?_⟩
        · rw [hd2, hd1, List.append_assoc]
        · intro s hs
          exact oaBalanced_append (hb1 herr) (hb2 s hs)
      · have hcall2 : (processItems agent (oracle k)
            { prompt := p, tool_called := false, final_output := Option.none
              }).st.tool_called = false := by simpa using hcall
        simp only [hcall2, Bool.false_eq_true, if_false]
        cases hfin : (processItems agent (oracle k)
            { prompt := p, tool_called := false, final_output := Option.none
              }).st.final_output with
        | some out =>
          simp only [hfin]
          exact ⟨d1, hd1, hm1, fun s _ => hb1 herr⟩
        | none =>
          simp only [hfin]
          refine ⟨d1, hd1, hm1, ?_⟩
          intro s hs
          exact absurd hs (by simp)

end OpenAIAgent

/-- C4: tool-output messages pair off with tool-call messages. For the
literun loop of `Runner.run`, started from any conversation seed, the
suffix the loop appends has `toolOutputIds` equal to `toolCallIds` as
sequences (same count, same `call_id`s, same order) and outputs never
outnumbering calls on any initial segment — in the source as given this
holds degenerately: every message append is rejected by the pydantic
`ContentType` field check (the defect settled under C5), so the
appended suffix is always empty, and `Runner.run` as a whole aborts
before the loop. In openai_agent the pairing is substantive: every run
that returns has a balanced appended suffix in observed order, and the
count-dominance holds for every run (a raise from an inline tool
execution can leave a trailing unmatched call). -/
theorem claim4_tool_message_pairing
    (agent : Literun.Agent) (oracle : Nat → List OutputItem) (input : String)
    (ctx : Option (PyDict PyVal)) (fuel k : Nat) (p : Literun.PromptTemplate)
    (items : List Literun.RunItem)
    (agentO : OpenAIAgent.Agent) (oracleO : Nat → List OutputItem) (inputO : String)
    (tmplO : Option (List OpenAIAgent.PromptMessage)) (hinO : ¬ inputO = "") :
    (∃ d, (Literun.runAux agent oracle input ctx fuel k p items).prompt.messages
          = p.messages ++ d ∧
        Literun.balanced d ∧ Literun.outputsNeverLead d) ∧
      (∃ d, (OpenAIAgent.Agent.invoke agentO oracleO inputO tmplO).2.2
          = (OpenAIAgent.buildInitial agentO tmplO ++ [OpenAIAgent.userMsg inputO]) ++ d ∧
        OpenAIAgent.oaOutputsNeverLead d ∧
        ∀ s, (OpenAIAgent.Agent.invoke agentO oracleO inputO tmplO).1 = Except.ok s →
          OpenAIAgent.oaBalanced d) := by
  constructor
  · exact Literun.runAux_delta agent oracle input ctx fuel k p items
  · unfold OpenAIAgent.Agent.invoke
    rw [if_neg (by simp [hinO])]
    exact OpenAIAgent.invokeAux_delta agentO oracleO agentO.max_iterations 0 _

/-- Witness for C4, at a concrete agent, model and input on both
loops. -/
theorem claim4_tool_message_pairing_witness :
    (∃ d, (Literun.runAux wAgentL wGhostOracle "hi" Option.none 2 0
            { messages := [] } []).prompt.messages
          = ([] : List Literun.PromptMessage) ++ d ∧
        Literun.balanced d ∧ Literun.outputsNeverLead d) ∧
      (∃ d, (OpenAIAgent.Agent.invoke wAgentO wEchoOracle "hi" Option.none).2.2
          = (OpenAIAgent.buildInitial wAgentO Option.none
              ++ [OpenAIAgent.userMsg "hi"]) ++ d ∧
        OpenAIAgent.oaOutputsNeverLead d ∧
        ∀ s, (OpenAIAgent.Agent.invoke wAgentO wEchoOracle "hi" Option.none).1
            = Except.ok s →
          OpenAIAgent.oaBalanced d) :=
  claim4_tool_message_pairing wAgentL wGhostOracle "hi" Option.none 2 0
    { messages := [] } [] wAgentO wEchoOracle "hi" Option.none (by decide)
